import Mathlib

/-!
Verification of the space-shooter game of this repository.

The repository holds two parallel implementations of the same game:
* `src/app/page.tsx` — ECS style (`class Game` with an entity map); embedded
  in namespace `ECS` below.
* `src/unnamed/part_000` — flat object-list style (`class Game` with
  `bullets` / `enemies` / `stars` arrays); embedded in namespace `Flat`.

Embedding conventions:
* JS numbers are embedded as exact rationals (`ℚ`); `score` and `hp` as `ℤ`.
* `Math.random()` draws are inputs: a tick takes the draws it may consume
  (enemy-spawn roll, spawn x, per-star wrap draws) in a `TickIn` record, and
  reset takes the per-star creation draws.
* `Math.sqrt` / `Math.hypot` occur in comparisons (`distance(a,b) < r`,
  `dist > 8`, `speed > PLAYER_SPEED` is the exception below), which for
  nonnegative operands are equivalent to the squared comparisons embedded
  here; where the pointer-pursuit code uses the square root as a value
  (`factor`, the speed normalisation), the model takes an abstract
  square-root function `sq : ℚ → ℚ` as part of the tick input — no claim
  verified here depends on its value.
* `Date.now()` is the `now` input of a tick; `dtMs` is the `dt` input.
* The ECS entity map with its insertion-ordered iteration is embedded as one
  player record plus `bullets` / `enemies` / `stars` lists in creation order,
  keeping the numeric entity ids produced by `createEntity` (`nextId`); after
  `reset` the entity layout of `page.tsx` is always exactly one player
  (id 1), one input holder (id 2), `STAR_COUNT` stars (ids 3..52), and the
  bullets/enemies created afterwards.  The input holder is the `input` field.
* Rendering (`system_Render` / `render`) only draws and never mutates game
  state, so it is not embedded.
-/

/-! ### Constants (identical in both source files) -/

def GAME_WIDTH : ℚ := 320
def GAME_HEIGHT : ℚ := 568
def PLAYER_SIZE : ℚ := 20
def PLAYER_SPEED : ℚ := 4.5
def BULLET_SIZE : ℚ := 4
def BULLET_SPEED : ℚ := 7
def ENEMY_SIZE : ℚ := 16
def ENEMY_SPEED : ℚ := 1.5
def STAR_COUNT : ℕ := 50
def ENEMY_SPAWN_RATE : ℚ := 0.015
def BULLET_FIRE_RATE : ℚ := 120

/-! ### Shared utilities -/

structure Vec2 where
  x : ℚ
  y : ℚ
deriving DecidableEq, Repr

def createVector2 (x y : ℚ) : Vec2 := ⟨x, y⟩

/-- Squared euclidean distance.  The sources compute
`Math.hypot(a.x-b.x, a.y-b.y)` resp. `Math.sqrt((a.x-b.x)**2+(a.y-b.y)**2)`;
every use compares the distance against a nonnegative bound, which is
equivalent to comparing `dist2` against the squared bound. -/
def dist2 (a b : Vec2) : ℚ := (a.x - b.x) ^ 2 + (a.y - b.y) ^ 2

/-- `clamp(v, min, max) = Math.max(min, Math.min(max, v))`. -/
def clamp (v lo hi : ℚ) : ℚ := max lo (min hi v)

/-- `lerp(a, b, t) = a + (b - a) * t`. -/
def lerp (a b t : ℚ) : ℚ := a + (b - a) * t

/-- Collision test of both sources: euclidean distance of the centers
strictly below half the sum of the sizes, embedded squared. -/
def isColliding (pa : Vec2) (sa : ℚ) (pb : Vec2) (sb : ℚ) : Bool :=
  decide (dist2 pa pb < ((sa + sb) / 2) ^ 2)

inductive Phase where
  | playing
  | gameOver
deriving DecidableEq, Repr

/-- The normalized input snapshot (`C_INPUT` component in `page.tsx`,
`Game.input` in `part_000`); written by the host, read by the tick.
`part_000` additionally stores an unused `targetPos`, omitted here. -/
structure InputC where
  left : Bool
  right : Bool
  up : Bool
  down : Bool
  shoot : Bool
  touching : Bool
  mousePos : Vec2
deriving DecidableEq, Repr

/-- The five `Math.random()` draws consumed when creating one star
(both sources use the same formulas). -/
structure StarRand where
  posX : ℚ
  posY : ℚ
  velY : ℚ
  size : ℚ
  brightness : ℚ

/-- External inputs of one tick: the wall clock, the frame delta, and the
`Math.random()` draws / `Math.sqrt` values the tick may consume. -/
structure TickIn where
  now : ℚ
  dt : ℚ
  spawnRoll : ℚ
  spawnX : ℚ
  starR : ℕ → ℚ × ℚ
  sq : ℚ → ℚ

/-- Target-velocity computation shared verbatim by both sources: keyboard
axes add `±PLAYER_SPEED`; when touching and the pointer is more than 8 units
away, the pursuit vector overrides the keyboard vector and is capped at
`PLAYER_SPEED`. -/
def targetVel (sq : ℚ → ℚ) (inp : InputC) (pos : Vec2) : Vec2 :=
  let kx := (if inp.left then -PLAYER_SPEED else 0) +
            (if inp.right then PLAYER_SPEED else 0)
  let ky := (if inp.up then -PLAYER_SPEED else 0) +
            (if inp.down then PLAYER_SPEED else 0)
  if inp.touching then
    let dx := inp.mousePos.x - pos.x
    let dy := inp.mousePos.y - pos.y
    -- source: `dist > 8` with `dist = Math.hypot(dx, dy)`
    if dist2 inp.mousePos pos > 64 then
      let dist := sq (dx ^ 2 + dy ^ 2)
      let factor := min 1 (dist / 60)
      let tx := dx * 0.15 * factor
      let ty := dy * 0.15 * factor
      let speed := sq (tx ^ 2 + ty ^ 2)
      if speed > PLAYER_SPEED then
        ⟨tx / speed * PLAYER_SPEED, ty / speed * PLAYER_SPEED⟩
      else ⟨tx, ty⟩
    else ⟨kx, ky⟩
  else ⟨kx, ky⟩

namespace ECS

/-- A bullet entity of `page.tsx`: components `position`, `velocity`,
`render {color '#ffff00', size BULLET_SIZE}`, `bullet {owner 'player'}`,
`lifetime {t}`.  The constant color and owner tag are not embedded. -/
structure Bullet where
  id : ℕ
  pos : Vec2
  vel : Vec2
  size : ℚ
  lifetime : ℚ
deriving DecidableEq, Repr

/-- An enemy entity: components `position`, `velocity`,
`render {color '#ff4444', size ENEMY_SIZE}`, `enemy {type 'basic'}`. -/
structure Enemy where
  id : ℕ
  pos : Vec2
  vel : Vec2
  size : ℚ
deriving DecidableEq, Repr

/-- A star entity: components `star {brightness}`, `position`, `velocity`,
`render {color '#fff', size}`. -/
structure Star where
  id : ℕ
  pos : Vec2
  vel : Vec2
  size : ℚ
  brightness : ℚ
deriving DecidableEq, Repr

/-- The `Game` class state of `page.tsx` (see the module comment for how the
entity map is laid out into fields). -/
structure Game where
  nextId : ℕ
  playerPos : Vec2
  playerVel : Vec2
  playerSize : ℚ
  bullets : List Bullet
  enemies : List Enemy
  stars : List Star
  input : InputC
  score : ℤ
  hp : ℤ
  gameState : Phase
  lastFireTime : ℚ
deriving DecidableEq, Repr

/-- Star creation inside `reset`: brightness `r*0.8+0.2`, position
`(r*width, r*height)`, velocity `(0, r*1.5+0.3)`, size `r*2+0.5`. -/
def mkStar (id : ℕ) (r : StarRand) : Star :=
  { id := id
    pos := createVector2 (r.posX * GAME_WIDTH) (r.posY * GAME_HEIGHT)
    vel := createVector2 0 (r.velY * 1.5 + 0.3)
    size := r.size * 2 + 0.5
    brightness := r.brightness * 0.8 + 0.2 }

/-- `Game.reset(skipScore)` of `page.tsx`: clears all entities, resets
`nextId`, zeroes score and restores hp in both branches (the `skipScore`
branch, used only by the constructor, keeps the current `gameState`),
recreates the player (id 1), the input holder (id 2) and `STAR_COUNT` stars
(ids 3..), and records the fire timer at the current wall clock. -/
def reset (s : Game) (skipScore : Bool) (rs : ℕ → StarRand) (now : ℚ) : Game :=
  { nextId := 3 + STAR_COUNT
    playerPos := createVector2 (GAME_WIDTH / 2) (GAME_HEIGHT - 60)
    playerVel := createVector2 0 0
    playerSize := PLAYER_SIZE
    bullets := []
    enemies := []
    stars := (List.range STAR_COUNT).map (fun i => mkStar (3 + i) (rs i))
    input := { left := false, right := false, up := false, down := false
               shoot := false, touching := false
               mousePos := createVector2 (GAME_WIDTH / 2) (GAME_HEIGHT - 60) }
    score := 0
    hp := 3
    gameState := if skipScore then s.gameState else Phase.playing
    lastFireTime := now }

/-- Field initializers of the `Game` class, before the constructor body
runs (`score = 0; hp = 3; gameState = 'playing'; lastFireTime = 0;
entities empty`).  The player/star fields are placeholders: the constructor
immediately overwrites everything via `reset(true)`. -/
def mkGame0 : Game :=
  { nextId := 1
    playerPos := createVector2 (GAME_WIDTH / 2) (GAME_HEIGHT - 60)
    playerVel := createVector2 0 0
    playerSize := PLAYER_SIZE
    bullets := []
    enemies := []
    stars := []
    input := { left := false, right := false, up := false, down := false
               shoot := false, touching := false
               mousePos := createVector2 (GAME_WIDTH / 2) (GAME_HEIGHT - 60) }
    score := 0
    hp := 3
    gameState := Phase.playing
    lastFireTime := 0 }

/-- `new Game()` = field initializers followed by `reset(true)`. -/
def init (rs : ℕ → StarRand) (now : ℚ) : Game :=
  reset mkGame0 true rs now

/-- `system_InputToPlayer`: recompute the target velocity from the input
snapshot and smooth the player velocity toward it (`lerp` factor 0.15).
The position is clamped later in `system_Movement`. -/
def system_InputToPlayer (sq : ℚ → ℚ) (s : Game) : Game :=
  let tv := targetVel sq s.input s.playerPos
  { s with playerVel := createVector2 (lerp s.playerVel.x tv.x 0.15)
                                      (lerp s.playerVel.y tv.y 0.15) }

/-- `system_Shooting` firing condition: shoot intent and strictly more than
`BULLET_FIRE_RATE` ms since the last recorded fire time.  (The source also
requires the input holder and a player to exist; both always do.) -/
def fireCond (s : Game) (now : ℚ) : Bool :=
  s.input.shoot && decide (now - s.lastFireTime > BULLET_FIRE_RATE)

/-- `system_Shooting`: when the firing condition holds, create a bullet at
the player's current position with velocity `(0, -BULLET_SPEED)` and a
3000 ms safety lifetime, and record the fire time. -/
def system_Shooting (s : Game) (now : ℚ) : Game :=
  if fireCond s now then
    { s with
      bullets := s.bullets ++
        [{ id := s.nextId, pos := s.playerPos
           vel := createVector2 0 (-BULLET_SPEED)
           size := BULLET_SIZE, lifetime := 3000 }]
      nextId := s.nextId + 1
      lastFireTime := now }
  else s

/-- `system_EnemySpawn`: with probability `ENEMY_SPAWN_RATE` (the roll is an
input) spawn an enemy at `(roll2 * (width - ENEMY_SIZE) + ENEMY_SIZE/2,
-ENEMY_SIZE)` with velocity `(0, ENEMY_SPEED)`. -/
def system_EnemySpawn (roll x01 : ℚ) (s : Game) : Game :=
  if roll < ENEMY_SPAWN_RATE then
    { s with
      enemies := s.enemies ++
        [{ id := s.nextId
           pos := createVector2 (x01 * (GAME_WIDTH - ENEMY_SIZE) + ENEMY_SIZE / 2)
                                (-ENEMY_SIZE)
           vel := createVector2 0 ENEMY_SPEED
           size := ENEMY_SIZE }]
      nextId := s.nextId + 1 }
  else s

/-- Per-star movement step of `system_Movement`: integrate, then wrap when
below `height + 5` (new x and downward speed are fresh draws `w i`). -/
def moveStar (w : ℕ → ℚ × ℚ) (i : ℕ) (st : Star) : Star :=
  let pos1 := createVector2 (st.pos.x + st.vel.x) (st.pos.y + st.vel.y)
  if pos1.y > GAME_HEIGHT + 5 then
    { st with pos := createVector2 ((w i).1 * GAME_WIDTH) (-5)
              vel := createVector2 st.vel.x ((w i).2 * 1.5 + 0.3) }
  else { st with pos := pos1 }

/-- Per-bullet movement step of `system_Movement`: integrate, count the
lifetime down by `dt` and destroy the bullet when it reaches zero. -/
def moveBullet (dt : ℚ) (b : Bullet) : Option Bullet :=
  let b1 := { b with pos := createVector2 (b.pos.x + b.vel.x) (b.pos.y + b.vel.y)
                     lifetime := b.lifetime - dt }
  if b1.lifetime ≤ 0 then none else some b1

/-- `system_Movement`: integrate every movable, wrap stars, count bullet
lifetimes down, then clamp the player fully inside the playfield. -/
def system_Movement (w : ℕ → ℚ × ℚ) (dt : ℚ) (s : Game) : Game :=
  let p1 := createVector2 (s.playerPos.x + s.playerVel.x)
                          (s.playerPos.y + s.playerVel.y)
  let half := s.playerSize / 2
  { s with
    playerPos := createVector2 (clamp p1.x half (GAME_WIDTH - half))
                               (clamp p1.y half (GAME_HEIGHT - half))
    bullets := s.bullets.filterMap (moveBullet dt)
    enemies := s.enemies.map (fun e =>
      { e with pos := createVector2 (e.pos.x + e.vel.x) (e.pos.y + e.vel.y) })
    stars := s.stars.enum.map (fun p => moveStar w p.1 p.2) }

/-- One step of the player-vs-enemy loop of `system_Collision`, on the
accumulator (hp, gameState, destroyed enemy ids): on overlap the enemy is
destroyed and hp decremented; at zero the phase flips to `gameOver` and hp
is floored at 0. -/
def collideStep (ppos : Vec2) (psize : ℚ) (acc : ℤ × Phase × List ℕ)
    (e : Enemy) : ℤ × Phase × List ℕ :=
  if isColliding e.pos e.size ppos psize then
    let hp1 := acc.1 - 1
    if hp1 ≤ 0 then ⟨0, Phase.gameOver, acc.2.2 ++ [e.id]⟩
    else ⟨hp1, acc.2.1, acc.2.2 ++ [e.id]⟩
  else acc

/-- The inner loop of the bullet-vs-enemy pass: scan the (stale) enemy list
in order and stop at the first overlapping enemy (`break` in the source). -/
def findHit (b : Bullet) : List Enemy → Option Enemy
  | [] => none
  | e :: rest => if isColliding b.pos b.size e.pos e.size then some e
                 else findHit b rest

/-- One step of the bullet loop of `system_Collision`, on the accumulator
(score, destroyed enemy ids, destroyed bullet ids): the first overlapping
enemy of the stale list scores 100 and both parties are destroyed. -/
def bulletStep (enemies : List Enemy) (acc : ℤ × List ℕ × List ℕ)
    (b : Bullet) : ℤ × List ℕ × List ℕ :=
  match findHit b enemies with
  | some e => ⟨acc.1 + 100, acc.2.1 ++ [e.id], acc.2.2 ++ [b.id]⟩
  | none => acc

/-- `system_Collision`: both loops iterate over the entity lists snapshotted
at entry (`findAllWith` at the top of the method), so the bullet loop also
scans enemies that the player loop already destroyed; `destroyEntity` is
idempotent, hence the final lists are the snapshots minus all destroyed
ids. -/
def system_Collision (s : Game) : Game :=
  let pd := s.enemies.foldl (collideStep s.playerPos s.playerSize)
              ⟨s.hp, s.gameState, []⟩
  let bp := s.bullets.foldl (bulletStep s.enemies) ⟨s.score, [], []⟩
  { s with
    hp := pd.1
    gameState := pd.2.1
    score := bp.1
    enemies := s.enemies.filter
      (fun e => !(pd.2.2.contains e.id || bp.2.1.contains e.id))
    bullets := s.bullets.filter (fun b => !bp.2.2.contains b.id) }

/-- The out-of-bounds test of `system_Cleanup`: outside the playfield by
more than `size + 20` on any side. -/
def outOfBounds (pos : Vec2) (size : ℚ) : Bool :=
  let m := size + 20
  decide (pos.y < -m) || decide (pos.y > GAME_HEIGHT + m) ||
  decide (pos.x < -m) || decide (pos.x > GAME_WIDTH + m)

/-- `system_Cleanup`: evict bullets and enemies that are out of bounds. -/
def system_Cleanup (s : Game) : Game :=
  { s with
    bullets := s.bullets.filter (fun b => !outOfBounds b.pos b.size)
    enemies := s.enemies.filter (fun e => !outOfBounds e.pos e.size) }

/-- `Game.updateAndRender(ctx, dtMs)` without the drawing: in `gameOver`
only `system_Movement` runs; otherwise input → shooting → spawn → movement
→ collision → cleanup, in that order. -/
def updateAndRender (s : Game) (t : TickIn) : Game :=
  if s.gameState = Phase.gameOver then
    system_Movement t.starR t.dt s
  else
    system_Cleanup (system_Collision (system_Movement t.starR t.dt
      (system_EnemySpawn t.spawnRoll t.spawnX
        (system_Shooting (system_InputToPlayer t.sq s) t.now))))

/-- Run `n` consecutive ticks, tick `k` (1-based) taking inputs `f k`. -/
def run (f : ℕ → TickIn) (s : Game) : ℕ → Game
  | 0 => s
  | n + 1 => updateAndRender (run f s n) (f (n + 1))

/-- The states a `page.tsx` session can reach: construction, ticks with
arbitrary external inputs, host restarts (`reset(false)`), and input-handler
writes (`setInput`). -/
inductive Reach : Game → Prop where
  | init : ∀ rs now, Reach (init rs now)
  | tick : ∀ s t, Reach s → Reach (updateAndRender s t)
  | restart : ∀ s rs now, Reach s → Reach (reset s false rs now)
  | setInput : ∀ s inp, Reach s → Reach { s with input := inp }

end ECS

namespace Flat

/-- `Player` of `part_000`; the constant `color` and the always-true
`active` flag (only read by the renderer) are not embedded. -/
structure Player where
  pos : Vec2
  vel : Vec2
  size : ℚ
  health : ℤ
deriving DecidableEq, Repr

inductive Owner where
  | player
  | enemy
deriving DecidableEq, Repr

/-- `Bullet` of `part_000` (no lifetime field in this implementation). -/
structure Bullet where
  pos : Vec2
  vel : Vec2
  size : ℚ
  owner : Owner
deriving DecidableEq, Repr

/-- `Enemy` of `part_000`; the single `type: 'basic'` tag is constant. -/
structure Enemy where
  pos : Vec2
  vel : Vec2
  size : ℚ
deriving DecidableEq, Repr

structure Star where
  pos : Vec2
  vel : Vec2
  size : ℚ
  brightness : ℚ
deriving DecidableEq, Repr

/-- The `Game` class state of `part_000`. -/
structure Game where
  score : ℤ
  hp : ℤ
  gameState : Phase
  player : Player
  bullets : List Bullet
  enemies : List Enemy
  stars : List Star
  input : InputC
  lastFireTime : ℚ
deriving DecidableEq, Repr

/-- `initStars`: `STAR_COUNT` stars with fresh draws, same formulas as the
ECS implementation. -/
def initStars (rs : ℕ → StarRand) : List Star :=
  (List.range STAR_COUNT).map (fun i =>
    ({ pos := createVector2 ((rs i).posX * GAME_WIDTH) ((rs i).posY * GAME_HEIGHT)
       vel := createVector2 0 ((rs i).velY * 1.5 + 0.3)
       size := (rs i).size * 2 + 0.5
       brightness := (rs i).brightness * 0.8 + 0.2 } : Star))

/-- The starting player of both the constructor and `reset`. -/
def initPlayer : Player :=
  { pos := createVector2 (GAME_WIDTH / 2) (GAME_HEIGHT - 60)
    vel := createVector2 0 0
    size := PLAYER_SIZE
    health := 3 }

/-- `new Game()` of `part_000`: field initializers plus the constructor
body (`this.player = ...; this.initStars()`). -/
def init (rs : ℕ → StarRand) : Game :=
  { score := 0
    hp := 3
    gameState := Phase.playing
    player := initPlayer
    bullets := []
    enemies := []
    stars := initStars rs
    input := { left := false, right := false, up := false, down := false
               shoot := false, touching := false
               mousePos := createVector2 (GAME_WIDTH / 2) (GAME_HEIGHT / 2) }
    lastFireTime := 0 }

/-- `Game.reset()` of `part_000`: restores the player, clears bullets and
enemies, zeroes score, hp := 3, phase := playing, regenerates the stars.
Unlike the ECS implementation it touches neither `input` nor
`lastFireTime`. -/
def reset (s : Game) (rs : ℕ → StarRand) : Game :=
  { s with
    player := initPlayer
    bullets := []
    enemies := []
    score := 0
    hp := 3
    gameState := Phase.playing
    stars := initStars rs }

/-- One step of the per-bullet enemy scan (`this.enemies.filter` inside the
bullet filter): every overlapping enemy scores 100 and is dropped; the
accumulator is (score, kept enemies, hit flag). -/
def scanStep (b : Bullet) (acc : ℤ × List Enemy × Bool) (e : Enemy) :
    ℤ × List Enemy × Bool :=
  if isColliding b.pos b.size e.pos e.size then ⟨acc.1 + 100, acc.2.1, true⟩
  else ⟨acc.1, acc.2.1 ++ [e], acc.2.2⟩

/-- The enemy scan a single player-owned bullet performs: unlike the ECS
implementation there is no `break`, so all overlapping enemies are removed
and each one scores. -/
def scanEnemies (b : Bullet) (sc : ℤ) (es : List Enemy) :
    ℤ × List Enemy × Bool :=
  es.foldl (scanStep b) ⟨sc, [], false⟩

/-- One step of the bullet-vs-enemy pass (`this.bullets.filter`), on the
accumulator (score, kept bullets, current enemies): a player bullet scans
the current enemy list and survives only when it hit nothing. -/
def bulletStep (acc : ℤ × List Bullet × List Enemy) (b : Bullet) :
    ℤ × List Bullet × List Enemy :=
  if b.owner = Owner.player then
    let r := scanEnemies b acc.1 acc.2.2
    ⟨r.1, if r.2.2 then acc.2.1 else acc.2.1 ++ [b], r.2.1⟩
  else ⟨acc.1, acc.2.1 ++ [b], acc.2.2⟩

def bulletEnemyPass (sc : ℤ) (bs : List Bullet) (es : List Enemy) :
    ℤ × List Bullet × List Enemy :=
  bs.foldl bulletStep ⟨sc, [], es⟩

/-- One step of the player-vs-enemy pass (`this.enemies.filter` at the end
of `update`), on the accumulator (hp, phase, kept enemies): an overlapping
enemy is dropped and decrements hp; at `hp <= 0` the phase flips to
`gameOver` — note there is no `hp = 0` floor in this implementation. -/
def playerStep (p : Player) (acc : ℤ × Phase × List Enemy) (e : Enemy) :
    ℤ × Phase × List Enemy :=
  if isColliding p.pos p.size e.pos e.size then
    let hp1 := acc.1 - 1
    ⟨hp1, if hp1 ≤ 0 then Phase.gameOver else acc.2.1, acc.2.2⟩
  else ⟨acc.1, acc.2.1, acc.2.2 ++ [e]⟩

def playerEnemyPass (p : Player) (hp : ℤ) (ph : Phase) (es : List Enemy) :
    ℤ × Phase × List Enemy :=
  es.foldl (playerStep p) ⟨hp, ph, []⟩

/-- Per-star update of `update`: `y += vel.y`, then relocate to `y = -5`
with fresh x and downward speed once below `height + 5`. -/
def moveStar (w : ℕ → ℚ × ℚ) (i : ℕ) (st : Star) : Star :=
  let y1 := st.pos.y + st.vel.y
  if y1 > GAME_HEIGHT + 5 then
    { st with pos := createVector2 ((w i).1 * GAME_WIDTH) (-5)
              vel := createVector2 st.vel.x ((w i).2 * 1.5 + 0.3) }
  else { st with pos := createVector2 st.pos.x y1 }

/-- `Game.update()` of `part_000`.  Order: early return on `gameOver`;
player intent / smoothing / integration / clamping; firing; star drift and
recycling; bullet integration and eviction (`-20 < y < height + 20`);
enemy integration and eviction (`y < height + size + 10`); enemy spawn
(x = roll * (width - ENEMY_SIZE), no half-size offset here); bullet-vs-enemy
pass; player-vs-enemy pass. -/
def update (s : Game) (t : TickIn) : Game :=
  if s.gameState = Phase.gameOver then s
  else
    let tv := targetVel t.sq s.input s.player.pos
    let vel1 := createVector2 (lerp s.player.vel.x tv.x 0.15)
                              (lerp s.player.vel.y tv.y 0.15)
    let half := s.player.size / 2
    let pos1 := createVector2
      (clamp (s.player.pos.x + vel1.x) half (GAME_WIDTH - half))
      (clamp (s.player.pos.y + vel1.y) half (GAME_HEIGHT - half))
    let player1 : Player := { s.player with pos := pos1, vel := vel1 }
    let fire := s.input.shoot && decide (t.now - s.lastFireTime > BULLET_FIRE_RATE)
    let bullets1 := if fire then
        s.bullets ++ [{ pos := player1.pos
                        vel := createVector2 0 (-BULLET_SPEED)
                        size := BULLET_SIZE, owner := Owner.player }]
      else s.bullets
    let stars1 := s.stars.enum.map (fun p => moveStar t.starR p.1 p.2)
    let bullets2 := (bullets1.map (fun b =>
        { b with pos := createVector2 b.pos.x (b.pos.y + b.vel.y) })).filter
      (fun b => decide (b.pos.y > -20) && decide (b.pos.y < GAME_HEIGHT + 20))
    let enemies1 := (s.enemies.map (fun e =>
        { e with pos := createVector2 e.pos.x (e.pos.y + e.vel.y) })).filter
      (fun e => decide (e.pos.y < GAME_HEIGHT + e.size + 10))
    let enemies2 := if t.spawnRoll < ENEMY_SPAWN_RATE then
        enemies1 ++ [{ pos := createVector2 (t.spawnX * (GAME_WIDTH - ENEMY_SIZE))
                                            (-ENEMY_SIZE)
                       vel := createVector2 0 ENEMY_SPEED
                       size := ENEMY_SIZE }]
      else enemies1
    let bp := bulletEnemyPass s.score bullets2 enemies2
    let pp := playerEnemyPass player1 s.hp s.gameState bp.2.2
    { s with
      score := bp.1
      hp := pp.1
      gameState := pp.2.1
      player := player1
      bullets := bp.2.1
      enemies := pp.2.2
      stars := stars1
      lastFireTime := if fire then t.now else s.lastFireTime }

/-- Run `n` consecutive ticks, tick `k` (1-based) taking inputs `f k`. -/
def run (f : ℕ → TickIn) (s : Game) : ℕ → Game
  | 0 => s
  | n + 1 => update (run f s n) (f (n + 1))

/-- The states a `part_000` session can reach: construction, ticks, host
restarts, and input-handler writes. -/
inductive Reach : Game → Prop where
  | init : ∀ rs, Reach (init rs)
  | tick : ∀ s t, Reach s → Reach (update s t)
  | restart : ∀ s rs, Reach s → Reach (reset s rs)
  | setInput : ∀ s inp, Reach s → Reach { s with input := inp }

end Flat

/-! ### Concrete sessions used by the claims

All concrete runs below start from star draws that are identically zero
(every star starts at `(0,0)` with downward speed `0.3`, so no star wraps
within the runs) and use idle input unless stated otherwise. -/

def rs0 : ℕ → StarRand := fun _ => ⟨0, 0, 0, 0, 0⟩

/-- Tick `k` of an idle session: wall clock `k` ms, frame delta 16 ms, no
shoot/movement intent, spawn roll 1 (no enemy spawns). -/
def idleTick (k : ℕ) : TickIn :=
  { now := k, dt := 16, spawnRoll := 1, spawnX := 0
    starR := fun _ => (0, 0), sq := fun _ => 0 }

/-- Session inputs for the `part_000` hp counterexample: enemies spawn at
ticks 1, 2 (x = 160), 3 (x = 177.5) and 12 (x = 160); the player never
moves from (160, 508). The two ticks-1-and-2 enemies each hit the player
alone (ticks 339, 340), bringing hp to 1; the ticks-3-and-12 enemies first
overlap the player on the same tick 350 and are both processed by the
player-vs-enemy pass of that tick. -/
def tinsHp (k : ℕ) : TickIn :=
  { idleTick k with
    spawnRoll := if k = 1 ∨ k = 2 ∨ k = 3 ∨ k = 12 then 0 else 1
    spawnX := if k = 3 then 355 / 608 else 10 / 19 }

/-- Session inputs for the `page.tsx` eviction counterexample: enemies
spawn at ticks 1, 2, 3 (x = 160) and 4 (x = 300).  The first three hit the
player at ticks 338, 339 and 340, ending the session; the fourth (id 56,
x = 300) never reaches the player and keeps drifting down during the
game-over ticks, in which `system_Cleanup` does not run. -/
def tinsEvict (k : ℕ) : TickIn :=
  { idleTick k with
    spawnRoll := if k ≤ 4 then 0 else 1
    spawnX := if k = 4 then 73 / 76 else 1 / 2 }

/-- Session inputs for the firing scenario: one tick per millisecond,
shoot intent handled via the start state, no enemy spawns. -/
def tinsFire (k : ℕ) : TickIn :=
  { now := k, dt := 1, spawnRoll := 1, spawnX := 0
    starR := fun _ => (0, 0), sq := fun _ => 0 }

/-- Session start of the firing scenario: a fresh `page.tsx` game at wall
clock 0 whose shoot intent is held down (`setInput({shoot: true})`). -/
def shootStart : ECS.Game :=
  { ECS.init rs0 0 with
    input := { (ECS.init rs0 0).input with shoot := true } }

/-- The ticks (among `n` ticks starting at index `k`) in which the
`page.tsx` tick fires a bullet: exactly those where the phase is `playing`
and `fireCond` holds — `updateAndRender` runs `system_Shooting` iff the
phase is not `gameOver`, and `system_Shooting` creates a bullet iff
`fireCond` holds. -/
def fireTicks (f : ℕ → TickIn) : ECS.Game → ℕ → ℕ → List ℕ
  | _, _, 0 => []
  | s, k, n + 1 =>
    (if s.gameState = Phase.playing ∧ ECS.fireCond s (f k).now = true
     then [k] else [])
    ++ fireTicks f (ECS.updateAndRender s (f k)) (k + 1) n

/-! ### Basic lemmas about the shared utilities -/

theorem clamp_mem (v lo hi : ℚ) (h : lo ≤ hi) :
    lo ≤ clamp v lo hi ∧ clamp v lo hi ≤ hi := by
  unfold clamp
  exact ⟨le_max_left _ _, max_le h (min_le_left _ _)⟩

theorem countP_add_length_filter_not {α : Type} (p : α → Bool) (l : List α) :
    (l.countP p : ℤ) + ((l.filter (fun a => !p a)).length : ℤ) =
      (l.length : ℤ) := by
  induction l with
  | nil => simp
  | cons a l ih =>
    by_cases h : p a <;> simp [List.countP_cons, List.filter_cons, h] <;> omega

/-! ### Lemmas about the `page.tsx` collision pass -/

theorem ECS.findHit_eq (b : ECS.Bullet) (es : List ECS.Enemy) :
    ECS.findHit b es =
      es.find? (fun e => isColliding b.pos b.size e.pos e.size) := by
  induction es with
  | nil => rfl
  | cons e es ih =>
    by_cases h : isColliding b.pos b.size e.pos e.size <;>
      simp [ECS.findHit, List.find?, h, ih]

theorem ECS.collide_fold_spec (pp : Vec2) (ps : ℚ) (es : List ECS.Enemy)
    (acc : ℤ × Phase × List ℕ) (h0 : 0 ≤ acc.1) :
    0 ≤ (es.foldl (ECS.collideStep pp ps) acc).1 ∧
    (es.foldl (ECS.collideStep pp ps) acc).1 ≤ acc.1 ∧
    ((acc.1 = 0 ↔ acc.2.1 = Phase.gameOver) →
      ((es.foldl (ECS.collideStep pp ps) acc).1 = 0 ↔
        (es.foldl (ECS.collideStep pp ps) acc).2.1 = Phase.gameOver)) := by
  induction es generalizing acc with
  | nil => exact ⟨h0, le_refl _, fun h => h⟩
  | cons e es ih =>
    simp only [List.foldl_cons]
    by_cases hc : isColliding e.pos e.size pp ps
    · by_cases hz : acc.1 - 1 ≤ 0
      · have hstep : ECS.collideStep pp ps acc e =
            ⟨0, Phase.gameOver, acc.2.2 ++ [e.id]⟩ := by
          simp [ECS.collideStep, hc, hz]
        rw [hstep]
        obtain ⟨a, b2, c⟩ := ih ⟨0, Phase.gameOver, acc.2.2 ++ [e.id]⟩ (le_refl 0)
        exact ⟨a, le_trans b2 h0, fun _ => c (by simp)⟩
      · have hstep : ECS.collideStep pp ps acc e =
            ⟨acc.1 - 1, acc.2.1, acc.2.2 ++ [e.id]⟩ := by
          simp [ECS.collideStep, hc, hz]
        rw [hstep]
        obtain ⟨a, b2, c⟩ :=
          ih ⟨acc.1 - 1, acc.2.1, acc.2.2 ++ [e.id]⟩ (by omega)
        refine ⟨a, by omega, fun hiff => c ?_⟩
        constructor
        · intro h1
          exact absurd h1 (by omega)
        · intro hgo
          have : acc.1 = 0 := hiff.mpr hgo
          omega
    · have hstep : ECS.collideStep pp ps acc e = acc := by
        simp [ECS.collideStep, hc]
      rw [hstep]
      exact ih acc h0

theorem ECS.bullet_fold_spec (es : List ECS.Enemy) (bs : List ECS.Bullet)
    (acc : ℤ × List ℕ × List ℕ) :
    (bs.foldl (ECS.bulletStep es) acc).1 =
      acc.1 + 100 * (bs.countP (fun b => (ECS.findHit b es).isSome) : ℤ) ∧
    (bs.foldl (ECS.bulletStep es) acc).2.1 =
      acc.2.1 ++ bs.filterMap (fun b => (ECS.findHit b es).map ECS.Enemy.id) ∧
    (bs.foldl (ECS.bulletStep es) acc).2.2 =
      acc.2.2 ++
        (bs.filter (fun b => (ECS.findHit b es).isSome)).map ECS.Bullet.id := by
  induction bs generalizing acc with
  | nil => simp
  | cons b bs ih =>
    simp only [List.foldl_cons]
    cases hfind : ECS.findHit b es with
    | none =>
      have hstep : ECS.bulletStep es acc b = acc := by
        simp [ECS.bulletStep, hfind]
      rw [hstep]
      obtain ⟨a, c, d⟩ := ih acc
      refine ⟨?_, ?_, ?_⟩
      · rw [a]; simp [List.countP_cons, hfind]
      · rw [c]; simp [List.filterMap_cons, hfind]
      · rw [d]; simp [List.filter_cons, hfind]
    | some e =>
      have hstep : ECS.bulletStep es acc b =
          ⟨acc.1 + 100, acc.2.1 ++ [e.id], acc.2.2 ++ [b.id]⟩ := by
        simp [ECS.bulletStep, hfind]
      rw [hstep]
      obtain ⟨a, c, d⟩ := ih ⟨acc.1 + 100, acc.2.1 ++ [e.id], acc.2.2 ++ [b.id]⟩
      refine ⟨?_, ?_, ?_⟩
      · rw [a]; simp [List.countP_cons, hfind]; ring
      · rw [c]; simp [List.filterMap_cons, hfind]
      · rw [d]; simp [List.filter_cons, hfind]

/-! ### Lemmas about the `part_000` collision passes -/

theorem Flat.scanEnemies_fold (b : Flat.Bullet) (es : List Flat.Enemy)
    (acc : ℤ × List Flat.Enemy × Bool) :
    es.foldl (Flat.scanStep b) acc =
      ⟨acc.1 + 100 *
          (es.countP (fun e => isColliding b.pos b.size e.pos e.size) : ℤ),
        acc.2.1 ++
          es.filter (fun e => !isColliding b.pos b.size e.pos e.size),
        acc.2.2 || es.any (fun e => isColliding b.pos b.size e.pos e.size)⟩ := by
  induction es generalizing acc with
  | nil => simp
  | cons e es ih =>
    simp only [List.foldl_cons]
    by_cases h : isColliding b.pos b.size e.pos e.size
    · have hstep : Flat.scanStep b acc e = ⟨acc.1 + 100, acc.2.1, true⟩ := by
        simp [Flat.scanStep, h]
      rw [hstep, ih]
      simp [List.countP_cons, List.filter_cons, List.any_cons, h]
      ring
    · have hstep : Flat.scanStep b acc e =
          ⟨acc.1, acc.2.1 ++ [e], acc.2.2⟩ := by
        simp [Flat.scanStep, h]
      rw [hstep, ih]
      simp [List.countP_cons, List.filter_cons, List.any_cons, h]

/-- The closed form of the enemy scan a single player bullet performs:
all overlapping enemies are removed, each scoring 100, and the hit flag is
set iff any enemy overlapped. -/
theorem Flat.scanEnemies_spec (b : Flat.Bullet) (sc : ℤ)
    (es : List Flat.Enemy) :
    Flat.scanEnemies b sc es =
      ⟨sc + 100 *
          (es.countP (fun e => isColliding b.pos b.size e.pos e.size) : ℤ),
        es.filter (fun e => !isColliding b.pos b.size e.pos e.size),
        es.any (fun e => isColliding b.pos b.size e.pos e.size)⟩ := by
  unfold Flat.scanEnemies
  rw [Flat.scanEnemies_fold]
  simp

theorem Flat.bullet_fold_score (bs : List Flat.Bullet)
    (acc : ℤ × List Flat.Bullet × List Flat.Enemy) :
    (bs.foldl Flat.bulletStep acc).1 +
        100 * (((bs.foldl Flat.bulletStep acc).2.2).length : ℤ) =
      acc.1 + 100 * ((acc.2.2.length : ℤ)) ∧
    ((bs.foldl Flat.bulletStep acc).2.2).length ≤ acc.2.2.length := by
  induction bs generalizing acc with
  | nil => exact ⟨rfl, le_refl _⟩
  | cons b bs ih =>
    simp only [List.foldl_cons]
    by_cases hw : b.owner = Flat.Owner.player
    · have hstep : Flat.bulletStep acc b =
          ⟨acc.1 + 100 *
              (acc.2.2.countP
                (fun e => isColliding b.pos b.size e.pos e.size) : ℤ),
            if acc.2.2.any (fun e => isColliding b.pos b.size e.pos e.size)
            then acc.2.1 else acc.2.1 ++ [b],
            acc.2.2.filter
              (fun e => !isColliding b.pos b.size e.pos e.size)⟩ := by
        simp [Flat.bulletStep, hw, Flat.scanEnemies_spec]
      rw [hstep]
      obtain ⟨a, c⟩ := ih
        ⟨acc.1 + 100 *
            (acc.2.2.countP (fun e => isColliding b.pos b.size e.pos e.size) : ℤ),
          if acc.2.2.any (fun e => isColliding b.pos b.size e.pos e.size)
          then acc.2.1 else acc.2.1 ++ [b],
          acc.2.2.filter (fun e => !isColliding b.pos b.size e.pos e.size)⟩
      simp only at a c
      have hcnt := countP_add_length_filter_not
        (fun e => isColliding b.pos b.size e.pos e.size) acc.2.2
      have hlen : ((acc.2.2.filter
          (fun e => !isColliding b.pos b.size e.pos e.size)).length : ℤ) ≤
          (acc.2.2.length : ℤ) := by
        exact_mod_cast Int.ofNat_le.mpr (List.length_filter_le _ _)
      constructor
      · omega
      · omega
    · have hstep : Flat.bulletStep acc b =
          ⟨acc.1, acc.2.1 ++ [b], acc.2.2⟩ := by
        simp [Flat.bulletStep, hw]
      rw [hstep]
      exact ih _

theorem Flat.bullet_fold_mem (bs : List Flat.Bullet)
    (acc : ℤ × List Flat.Bullet × List Flat.Enemy) :
    (∀ b ∈ (bs.foldl Flat.bulletStep acc).2.1, b ∈ acc.2.1 ∨ b ∈ bs) ∧
    (∀ e ∈ (bs.foldl Flat.bulletStep acc).2.2, e ∈ acc.2.2) := by
  induction bs generalizing acc with
  | nil =>
    exact ⟨fun b hb => Or.inl hb, fun e he => he⟩
  | cons b bs ih =>
    simp only [List.foldl_cons]
    by_cases hw : b.owner = Flat.Owner.player
    · have hstep : Flat.bulletStep acc b =
          ⟨(Flat.scanEnemies b acc.1 acc.2.2).1,
            if (Flat.scanEnemies b acc.1 acc.2.2).2.2 then acc.2.1
            else acc.2.1 ++ [b],
            (Flat.scanEnemies b acc.1 acc.2.2).2.1⟩ := by
        simp [Flat.bulletStep, hw]
      rw [hstep]
      obtain ⟨hb, he⟩ := ih ⟨(Flat.scanEnemies b acc.1 acc.2.2).1,
        if (Flat.scanEnemies b acc.1 acc.2.2).2.2 then acc.2.1
        else acc.2.1 ++ [b],
        (Flat.scanEnemies b acc.1 acc.2.2).2.1⟩
      constructor
      · intro b2 hb2
        rcases hb b2 hb2 with h | h
        · by_cases hh : (Flat.scanEnemies b acc.1 acc.2.2).2.2
          · simp [hh] at h
            exact Or.inl h
          · simp [hh, List.mem_append] at h
            rcases h with h | h
            · exact Or.inl h
            · exact Or.inr (by simp [h])
        · exact Or.inr (List.mem_cons_of_mem _ h)
      · intro e he2
        have := he e he2
        simp only at this
        rw [Flat.scanEnemies_spec] at this
        simp only at this
        exact List.mem_of_mem_filter this
    · have hstep : Flat.bulletStep acc b =
          ⟨acc.1, acc.2.1 ++ [b], acc.2.2⟩ := by
        simp [Flat.bulletStep, hw]
      rw [hstep]
      obtain ⟨hb, he⟩ := ih ⟨acc.1, acc.2.1 ++ [b], acc.2.2⟩
      constructor
      · intro b2 hb2
        rcases hb b2 hb2 with h | h
        · rw [List.mem_append] at h
          rcases h with h | h
          · exact Or.inl h
          · exact Or.inr (by simp at h; simp [h])
        · exact Or.inr (List.mem_cons_of_mem _ h)
      · exact he

theorem Flat.player_fold_spec (p : Flat.Player) (es : List Flat.Enemy)
    (acc : ℤ × Phase × List Flat.Enemy) :
    (es.foldl (Flat.playerStep p) acc).1 ≤ acc.1 ∧
    (∀ e ∈ (es.foldl (Flat.playerStep p) acc).2.2,
      e ∈ acc.2.2 ∨ e ∈ es) := by
  induction es generalizing acc with
  | nil => exact ⟨le_refl _, fun e he => Or.inl he⟩
  | cons e es ih =>
    simp only [List.foldl_cons]
    by_cases hc : isColliding p.pos p.size e.pos e.size
    · have hstep : Flat.playerStep p acc e =
          ⟨acc.1 - 1,
            if acc.1 - 1 ≤ 0 then Phase.gameOver else acc.2.1, acc.2.2⟩ := by
        simp [Flat.playerStep, hc]
      rw [hstep]
      obtain ⟨h1, h2⟩ := ih ⟨acc.1 - 1,
        if acc.1 - 1 ≤ 0 then Phase.gameOver else acc.2.1, acc.2.2⟩
      refine ⟨by simp only at h1; omega, fun e2 he2 => ?_⟩
      rcases h2 e2 he2 with h | h
      · exact Or.inl h
      · exact Or.inr (List.mem_cons_of_mem _ h)
    · have hstep : Flat.playerStep p acc e =
          ⟨acc.1, acc.2.1, acc.2.2 ++ [e]⟩ := by
        simp [Flat.playerStep, hc]
      rw [hstep]
      obtain ⟨h1, h2⟩ := ih ⟨acc.1, acc.2.1, acc.2.2 ++ [e]⟩
      refine ⟨h1, fun e2 he2 => ?_⟩
      rcases h2 e2 he2 with h | h
      · rw [List.mem_append] at h
        rcases h with h | h
        · exact Or.inl h
        · exact Or.inr (by simp at h; simp [h])
      · exact Or.inr (List.mem_cons_of_mem _ h)

/-! ### Field behaviour of the `page.tsx` systems -/

@[simp] theorem ECS.sIP_score (q : ℚ → ℚ) (s : ECS.Game) :
    (ECS.system_InputToPlayer q s).score = s.score := rfl

@[simp] theorem ECS.sIP_hp (q : ℚ → ℚ) (s : ECS.Game) :
    (ECS.system_InputToPlayer q s).hp = s.hp := rfl

@[simp] theorem ECS.sIP_gameState (q : ℚ → ℚ) (s : ECS.Game) :
    (ECS.system_InputToPlayer q s).gameState = s.gameState := rfl

@[simp] theorem ECS.sIP_playerPos (q : ℚ → ℚ) (s : ECS.Game) :
    (ECS.system_InputToPlayer q s).playerPos = s.playerPos := rfl

@[simp] theorem ECS.sIP_playerSize (q : ℚ → ℚ) (s : ECS.Game) :
    (ECS.system_InputToPlayer q s).playerSize = s.playerSize := rfl

@[simp] theorem ECS.sIP_bullets (q : ℚ → ℚ) (s : ECS.Game) :
    (ECS.system_InputToPlayer q s).bullets = s.bullets := rfl

@[simp] theorem ECS.sIP_enemies (q : ℚ → ℚ) (s : ECS.Game) :
    (ECS.system_InputToPlayer q s).enemies = s.enemies := rfl

@[simp] theorem ECS.sIP_nextId (q : ℚ → ℚ) (s : ECS.Game) :
    (ECS.system_InputToPlayer q s).nextId = s.nextId := rfl

@[simp] theorem ECS.sIP_input (q : ℚ → ℚ) (s : ECS.Game) :
    (ECS.system_InputToPlayer q s).input = s.input := rfl

@[simp] theorem ECS.sIP_lastFireTime (q : ℚ → ℚ) (s : ECS.Game) :
    (ECS.system_InputToPlayer q s).lastFireTime = s.lastFireTime := rfl

@[simp] theorem ECS.shoot_score (s : ECS.Game) (now : ℚ) :
    (ECS.system_Shooting s now).score = s.score := by
  unfold ECS.system_Shooting; split <;> rfl

@[simp] theorem ECS.shoot_hp (s : ECS.Game) (now : ℚ) :
    (ECS.system_Shooting s now).hp = s.hp := by
  unfold ECS.system_Shooting; split <;> rfl

@[simp] theorem ECS.shoot_gameState (s : ECS.Game) (now : ℚ) :
    (ECS.system_Shooting s now).gameState = s.gameState := by
  unfold ECS.system_Shooting; split <;> rfl

@[simp] theorem ECS.shoot_playerPos (s : ECS.Game) (now : ℚ) :
    (ECS.system_Shooting s now).playerPos = s.playerPos := by
  unfold ECS.system_Shooting; split <;> rfl

@[simp] theorem ECS.shoot_playerVel (s : ECS.Game) (now : ℚ) :
    (ECS.system_Shooting s now).playerVel = s.playerVel := by
  unfold ECS.system_Shooting; split <;> rfl

@[simp] theorem ECS.shoot_playerSize (s : ECS.Game) (now : ℚ) :
    (ECS.system_Shooting s now).playerSize = s.playerSize := by
  unfold ECS.system_Shooting; split <;> rfl

@[simp] theorem ECS.shoot_enemies (s : ECS.Game) (now : ℚ) :
    (ECS.system_Shooting s now).enemies = s.enemies := by
  unfold ECS.system_Shooting; split <;> rfl

@[simp] theorem ECS.spawn_score (r x : ℚ) (s : ECS.Game) :
    (ECS.system_EnemySpawn r x s).score = s.score := by
  unfold ECS.system_EnemySpawn; split <;> rfl

@[simp] theorem ECS.spawn_hp (r x : ℚ) (s : ECS.Game) :
    (ECS.system_EnemySpawn r x s).hp = s.hp := by
  unfold ECS.system_EnemySpawn; split <;> rfl

@[simp] theorem ECS.spawn_gameState (r x : ℚ) (s : ECS.Game) :
    (ECS.system_EnemySpawn r x s).gameState = s.gameState := by
  unfold ECS.system_EnemySpawn; split <;> rfl

@[simp] theorem ECS.spawn_playerPos (r x : ℚ) (s : ECS.Game) :
    (ECS.system_EnemySpawn r x s).playerPos = s.playerPos := by
  unfold ECS.system_EnemySpawn; split <;> rfl

@[simp] theorem ECS.spawn_playerVel (r x : ℚ) (s : ECS.Game) :
    (ECS.system_EnemySpawn r x s).playerVel = s.playerVel := by
  unfold ECS.system_EnemySpawn; split <;> rfl

@[simp] theorem ECS.spawn_playerSize (r x : ℚ) (s : ECS.Game) :
    (ECS.system_EnemySpawn r x s).playerSize = s.playerSize := by
  unfold ECS.system_EnemySpawn; split <;> rfl

@[simp] theorem ECS.spawn_bullets (r x : ℚ) (s : ECS.Game) :
    (ECS.system_EnemySpawn r x s).bullets = s.bullets := by
  unfold ECS.system_EnemySpawn; split <;> rfl

@[simp] theorem ECS.mov_score (w : ℕ → ℚ × ℚ) (dt : ℚ) (s : ECS.Game) :
    (ECS.system_Movement w dt s).score = s.score := rfl

@[simp] theorem ECS.mov_hp (w : ℕ → ℚ × ℚ) (dt : ℚ) (s : ECS.Game) :
    (ECS.system_Movement w dt s).hp = s.hp := rfl

@[simp] theorem ECS.mov_gameState (w : ℕ → ℚ × ℚ) (dt : ℚ) (s : ECS.Game) :
    (ECS.system_Movement w dt s).gameState = s.gameState := rfl

@[simp] theorem ECS.mov_playerSize (w : ℕ → ℚ × ℚ) (dt : ℚ) (s : ECS.Game) :
    (ECS.system_Movement w dt s).playerSize = s.playerSize := rfl

@[simp] theorem ECS.mov_nextId (w : ℕ → ℚ × ℚ) (dt : ℚ) (s : ECS.Game) :
    (ECS.system_Movement w dt s).nextId = s.nextId := rfl

@[simp] theorem ECS.mov_playerPos (w : ℕ → ℚ × ℚ) (dt : ℚ) (s : ECS.Game) :
    (ECS.system_Movement w dt s).playerPos =
      createVector2
        (clamp (s.playerPos.x + s.playerVel.x) (s.playerSize / 2)
          (GAME_WIDTH - s.playerSize / 2))
        (clamp (s.playerPos.y + s.playerVel.y) (s.playerSize / 2)
          (GAME_HEIGHT - s.playerSize / 2)) := rfl

@[simp] theorem ECS.mov_bullets (w : ℕ → ℚ × ℚ) (dt : ℚ) (s : ECS.Game) :
    (ECS.system_Movement w dt s).bullets =
      s.bullets.filterMap (ECS.moveBullet dt) := rfl

@[simp] theorem ECS.mov_enemies (w : ℕ → ℚ × ℚ) (dt : ℚ) (s : ECS.Game) :
    (ECS.system_Movement w dt s).enemies =
      s.enemies.map (fun e =>
        { e with pos := createVector2 (e.pos.x + e.vel.x) (e.pos.y + e.vel.y) }) :=
  rfl

@[simp] theorem ECS.col_hp (s : ECS.Game) :
    (ECS.system_Collision s).hp =
      (s.enemies.foldl (ECS.collideStep s.playerPos s.playerSize)
        ⟨s.hp, s.gameState, []⟩).1 := rfl

@[simp] theorem ECS.col_gameState (s : ECS.Game) :
    (ECS.system_Collision s).gameState =
      (s.enemies.foldl (ECS.collideStep s.playerPos s.playerSize)
        ⟨s.hp, s.gameState, []⟩).2.1 := rfl

@[simp] theorem ECS.col_score (s : ECS.Game) :
    (ECS.system_Collision s).score =
      (s.bullets.foldl (ECS.bulletStep s.enemies) ⟨s.score, [], []⟩).1 := rfl

@[simp] theorem ECS.col_playerPos (s : ECS.Game) :
    (ECS.system_Collision s).playerPos = s.playerPos := rfl

@[simp] theorem ECS.col_playerSize (s : ECS.Game) :
    (ECS.system_Collision s).playerSize = s.playerSize := rfl

@[simp] theorem ECS.col_nextId (s : ECS.Game) :
    (ECS.system_Collision s).nextId = s.nextId := rfl

theorem ECS.col_bullets (s : ECS.Game) :
    (ECS.system_Collision s).bullets =
      s.bullets.filter (fun b =>
        !((s.bullets.foldl (ECS.bulletStep s.enemies)
            ⟨s.score, [], []⟩).2.2.contains b.id)) := rfl

theorem ECS.col_enemies (s : ECS.Game) :
    (ECS.system_Collision s).enemies =
      s.enemies.filter (fun e =>
        !((s.enemies.foldl (ECS.collideStep s.playerPos s.playerSize)
              ⟨s.hp, s.gameState, []⟩).2.2.contains e.id ||
          (s.bullets.foldl (ECS.bulletStep s.enemies)
              ⟨s.score, [], []⟩).2.1.contains e.id)) := rfl

@[simp] theorem ECS.clean_score (s : ECS.Game) :
    (ECS.system_Cleanup s).score = s.score := rfl

@[simp] theorem ECS.clean_hp (s : ECS.Game) :
    (ECS.system_Cleanup s).hp = s.hp := rfl

@[simp] theorem ECS.clean_gameState (s : ECS.Game) :
    (ECS.system_Cleanup s).gameState = s.gameState := rfl

@[simp] theorem ECS.clean_playerPos (s : ECS.Game) :
    (ECS.system_Cleanup s).playerPos = s.playerPos := rfl

@[simp] theorem ECS.clean_playerSize (s : ECS.Game) :
    (ECS.system_Cleanup s).playerSize = s.playerSize := rfl

@[simp] theorem ECS.clean_nextId (s : ECS.Game) :
    (ECS.system_Cleanup s).nextId = s.nextId := rfl

@[simp] theorem ECS.clean_bullets (s : ECS.Game) :
    (ECS.system_Cleanup s).bullets =
      s.bullets.filter (fun b => !ECS.outOfBounds b.pos b.size) := rfl

@[simp] theorem ECS.clean_enemies (s : ECS.Game) :
    (ECS.system_Cleanup s).enemies =
      s.enemies.filter (fun e => !ECS.outOfBounds e.pos e.size) := rfl

@[simp] theorem createVector2_x (a b : ℚ) : (createVector2 a b).x = a := rfl

@[simp] theorem createVector2_y (a b : ℚ) : (createVector2 a b).y = b := rfl

/-! ### Reachable-state invariant of `page.tsx` -/

/-- Every state a `page.tsx` session can reach keeps hp within `[0, 3]`
with `hp = 0` exactly in the game-over phase, keeps the player (of size
`PLAYER_SIZE`) fully inside the playfield, and keeps the score a
nonnegative multiple of 100. -/
theorem ECS.reach_inv (s : ECS.Game) (h : ECS.Reach s) :
    0 ≤ s.hp ∧ s.hp ≤ 3 ∧ (s.hp = 0 ↔ s.gameState = Phase.gameOver) ∧
    s.playerSize = PLAYER_SIZE ∧
    PLAYER_SIZE / 2 ≤ s.playerPos.x ∧
    s.playerPos.x ≤ GAME_WIDTH - PLAYER_SIZE / 2 ∧
    PLAYER_SIZE / 2 ≤ s.playerPos.y ∧
    s.playerPos.y ≤ GAME_HEIGHT - PLAYER_SIZE / 2 ∧
    0 ≤ s.score ∧ (100 : ℤ) ∣ s.score := by
  induction h with
  | init rs now =>
    refine ⟨?_, ?_, ?_, ?_, ?_, ?_, ?_, ?_, le_refl 0, dvd_zero _⟩ <;>
      norm_num [ECS.init, ECS.reset, ECS.mkGame0, PLAYER_SIZE, GAME_WIDTH,
        GAME_HEIGHT] <;> decide
  | restart s rs now hr ih =>
    refine ⟨?_, ?_, ?_, ?_, ?_, ?_, ?_, ?_, le_refl 0, dvd_zero _⟩ <;>
      norm_num [ECS.reset, PLAYER_SIZE, GAME_WIDTH, GAME_HEIGHT] <;> decide
  | setInput s inp hr ih => exact ih
  | tick s t hr ih =>
    obtain ⟨h0, h3, hiff, hsz, hx1, hx2, hy1, hy2, hsc0, hscd⟩ := ih
    by_cases hgo : s.gameState = Phase.gameOver
    · have hupd : ECS.updateAndRender s t =
          ECS.system_Movement t.starR t.dt s := by
        simp [ECS.updateAndRender, hgo]
      rw [hupd]
      have hlohix : s.playerSize / 2 ≤ GAME_WIDTH - s.playerSize / 2 := by
        rw [hsz]; norm_num [PLAYER_SIZE, GAME_WIDTH]
      have hlohiy : s.playerSize / 2 ≤ GAME_HEIGHT - s.playerSize / 2 := by
        rw [hsz]; norm_num [PLAYER_SIZE, GAME_HEIGHT]
      have hcx := clamp_mem (s.playerPos.x + s.playerVel.x) (s.playerSize / 2)
        (GAME_WIDTH - s.playerSize / 2) hlohix
      have hcy := clamp_mem (s.playerPos.y + s.playerVel.y) (s.playerSize / 2)
        (GAME_HEIGHT - s.playerSize / 2) hlohiy
      rw [hsz] at hcx hcy
      refine ⟨by simpa using h0, by simpa using h3, by simpa using hiff,
        by simpa using hsz, ?_, ?_, ?_, ?_, by simpa using hsc0,
        by simpa using hscd⟩
      · simpa [hsz] using hcx.1
      · simpa [hsz] using hcx.2
      · simpa [hsz] using hcy.1
      · simpa [hsz] using hcy.2
    · have hupd : ECS.updateAndRender s t =
          ECS.system_Cleanup (ECS.system_Collision
            (ECS.system_Movement t.starR t.dt
              (ECS.system_EnemySpawn t.spawnRoll t.spawnX
                (ECS.system_Shooting (ECS.system_InputToPlayer t.sq s)
                  t.now)))) := by
        simp [ECS.updateAndRender, hgo]
      rw [hupd]
      set s4 := ECS.system_Movement t.starR t.dt
        (ECS.system_EnemySpawn t.spawnRoll t.spawnX
          (ECS.system_Shooting (ECS.system_InputToPlayer t.sq s) t.now))
        with hs4
      have h4hp : s4.hp = s.hp := by rw [hs4]; simp
      have h4gs : s4.gameState = s.gameState := by rw [hs4]; simp
      have h4sc : s4.score = s.score := by rw [hs4]; simp
      have h4sz : s4.playerSize = s.playerSize := by rw [hs4]; simp
      have hfold := ECS.collide_fold_spec s4.playerPos s4.playerSize s4.enemies
        ⟨s4.hp, s4.gameState, []⟩ (by simpa [h4hp] using h0)
      have hiff4 : s4.hp = 0 ↔ s4.gameState = Phase.gameOver := by
        rw [h4hp, h4gs]; exact hiff
      have hscore := (ECS.bullet_fold_spec s4.enemies s4.bullets
        ⟨s4.score, [], []⟩).1
      have hlohix : s4.playerSize / 2 ≤ GAME_WIDTH - s4.playerSize / 2 := by
        rw [h4sz, hsz]; norm_num [PLAYER_SIZE, GAME_WIDTH]
      have hlohiy : s4.playerSize / 2 ≤ GAME_HEIGHT - s4.playerSize / 2 := by
        rw [h4sz, hsz]; norm_num [PLAYER_SIZE, GAME_HEIGHT]
      have h4pos : PLAYER_SIZE / 2 ≤ s4.playerPos.x ∧
          s4.playerPos.x ≤ GAME_WIDTH - PLAYER_SIZE / 2 ∧
          PLAYER_SIZE / 2 ≤ s4.playerPos.y ∧
          s4.playerPos.y ≤ GAME_HEIGHT - PLAYER_SIZE / 2 := by
        have hx := clamp_mem
          ((ECS.system_EnemySpawn t.spawnRoll t.spawnX
              (ECS.system_Shooting (ECS.system_InputToPlayer t.sq s)
                t.now)).playerPos.x +
            (ECS.system_EnemySpawn t.spawnRoll t.spawnX
              (ECS.system_Shooting (ECS.system_InputToPlayer t.sq s)
                t.now)).playerVel.x)
          (s4.playerSize / 2) (GAME_WIDTH - s4.playerSize / 2) hlohix
        have hy := clamp_mem
          ((ECS.system_EnemySpawn t.spawnRoll t.spawnX
              (ECS.system_Shooting (ECS.system_InputToPlayer t.sq s)
                t.now)).playerPos.y +
            (ECS.system_EnemySpawn t.spawnRoll t.spawnX
              (ECS.system_Shooting (ECS.system_InputToPlayer t.sq s)
                t.now)).playerVel.y)
          (s4.playerSize / 2) (GAME_HEIGHT - s4.playerSize / 2) hlohiy
        rw [h4sz, hsz] at hx hy
        have hpp : s4.playerPos = createVector2
            (clamp ((ECS.system_EnemySpawn t.spawnRoll t.spawnX
                (ECS.system_Shooting (ECS.system_InputToPlayer t.sq s)
                  t.now)).playerPos.x +
              (ECS.system_EnemySpawn t.spawnRoll t.spawnX
                (ECS.system_Shooting (ECS.system_InputToPlayer t.sq s)
                  t.now)).playerVel.x)
              (PLAYER_SIZE / 2) (GAME_WIDTH - PLAYER_SIZE / 2))
            (clamp ((ECS.system_EnemySpawn t.spawnRoll t.spawnX
                (ECS.system_Shooting (ECS.system_InputToPlayer t.sq s)
                  t.now)).playerPos.y +
              (ECS.system_EnemySpawn t.spawnRoll t.spawnX
                (ECS.system_Shooting (ECS.system_InputToPlayer t.sq s)
                  t.now)).playerVel.y)
              (PLAYER_SIZE / 2) (GAME_HEIGHT - PLAYER_SIZE / 2)) := by
          rw [hs4]
          simp [hsz]
        rw [hpp]
        exact ⟨by simpa using hx.1, by simpa using hx.2,
          by simpa using hy.1, by simpa using hy.2⟩
      refine ⟨?_, ?_, ?_, ?_, ?_, ?_, ?_, ?_, ?_, ?_⟩
      · simpa using hfold.1
      · have := hfold.2.1
        simp only at this
        simp only [ECS.clean_hp, ECS.col_hp]
        omega
      · simpa using hfold.2.2 (by simpa using hiff4)
      · simpa [h4sz] using hsz
      · simpa using h4pos.1
      · simpa using h4pos.2.1
      · simpa using h4pos.2.2.1
      · simpa using h4pos.2.2.2
      · simp only [ECS.clean_score, ECS.col_score]
        have : (0 : ℤ) ≤ (s4.bullets.countP
            (fun b => (ECS.findHit b s4.enemies).isSome) : ℤ) :=
          Int.ofNat_nonneg _
        simp only at hscore
        rw [hscore, h4sc]
        omega
      · simp only [ECS.clean_score, ECS.col_score]
        simp only at hscore
        rw [hscore, h4sc]
        exact dvd_add hscd (Dvd.intro _ rfl)

/-! ### Reachable-state invariant of `part_000` -/

theorem Flat.update_gameOver (s : Flat.Game) (t : TickIn)
    (h : s.gameState = Phase.gameOver) : Flat.update s t = s := by
  simp [Flat.update, h]

theorem Flat.bulletEnemyPass_score (sc : ℤ) (bs : List Flat.Bullet)
    (es : List Flat.Enemy) :
    sc ≤ (Flat.bulletEnemyPass sc bs es).1 ∧
    (100 : ℤ) ∣ ((Flat.bulletEnemyPass sc bs es).1 - sc) := by
  obtain ⟨a, c⟩ := Flat.bullet_fold_score bs ⟨sc, [], es⟩
  unfold Flat.bulletEnemyPass
  simp only at a c
  have hlen : ((Flat.bulletEnemyPass sc bs es).2.2.length : ℤ) ≤
      (es.length : ℤ) := by
    unfold Flat.bulletEnemyPass
    exact_mod_cast Int.ofNat_le.mpr c
  constructor
  · omega
  · exact ⟨(es.length : ℤ) -
      ((bs.foldl Flat.bulletStep ⟨sc, [], es⟩).2.2.length : ℤ), by omega⟩

/-- The playing-tick shape of the `part_000` player after `update`:
velocity smoothed by `lerp`, position integrated then clamped to the
playfield, size unchanged. -/
theorem Flat.update_play_player (s : Flat.Game) (t : TickIn)
    (hgo : ¬s.gameState = Phase.gameOver) :
    (Flat.update s t).player =
      { s.player with
        pos := createVector2
          (clamp (s.player.pos.x +
              lerp s.player.vel.x (targetVel t.sq s.input s.player.pos).x 0.15)
            (s.player.size / 2) (GAME_WIDTH - s.player.size / 2))
          (clamp (s.player.pos.y +
              lerp s.player.vel.y (targetVel t.sq s.input s.player.pos).y 0.15)
            (s.player.size / 2) (GAME_HEIGHT - s.player.size / 2))
        vel := createVector2
          (lerp s.player.vel.x (targetVel t.sq s.input s.player.pos).x 0.15)
          (lerp s.player.vel.y (targetVel t.sq s.input s.player.pos).y 0.15) } := by
  simp [Flat.update, hgo]

/-- The `player1` intermediate of a playing `update` tick. -/
def Flat.player1 (s : Flat.Game) (t : TickIn) : Flat.Player :=
  { s.player with
    pos := createVector2
      (clamp (s.player.pos.x +
          lerp s.player.vel.x (targetVel t.sq s.input s.player.pos).x 0.15)
        (s.player.size / 2) (GAME_WIDTH - s.player.size / 2))
      (clamp (s.player.pos.y +
          lerp s.player.vel.y (targetVel t.sq s.input s.player.pos).y 0.15)
        (s.player.size / 2) (GAME_HEIGHT - s.player.size / 2))
    vel := createVector2
      (lerp s.player.vel.x (targetVel t.sq s.input s.player.pos).x 0.15)
      (lerp s.player.vel.y (targetVel t.sq s.input s.player.pos).y 0.15) }

/-- The firing condition of a `part_000` tick. -/
def Flat.fire (s : Flat.Game) (t : TickIn) : Bool :=
  s.input.shoot && decide (t.now - s.lastFireTime > BULLET_FIRE_RATE)

/-- The bullet list after the firing step of a playing `update` tick. -/
def Flat.bullets1 (s : Flat.Game) (t : TickIn) : List Flat.Bullet :=
  if Flat.fire s t then
    s.bullets ++ [{ pos := (Flat.player1 s t).pos
                    vel := createVector2 0 (-BULLET_SPEED)
                    size := BULLET_SIZE, owner := Flat.Owner.player }]
  else s.bullets

/-- The bullet list after integration and eviction of a playing tick. -/
def Flat.bullets2 (s : Flat.Game) (t : TickIn) : List Flat.Bullet :=
  ((Flat.bullets1 s t).map (fun b =>
      { b with pos := createVector2 b.pos.x (b.pos.y + b.vel.y) })).filter
    (fun b => decide (b.pos.y > -20) && decide (b.pos.y < GAME_HEIGHT + 20))

/-- The enemy list after integration and eviction of a playing tick. -/
def Flat.enemies1 (s : Flat.Game) : List Flat.Enemy :=
  (s.enemies.map (fun e =>
      { e with pos := createVector2 e.pos.x (e.pos.y + e.vel.y) })).filter
    (fun e => decide (e.pos.y < GAME_HEIGHT + e.size + 10))

/-- The enemy list after the spawn step of a playing tick. -/
def Flat.enemies2 (s : Flat.Game) (t : TickIn) : List Flat.Enemy :=
  if t.spawnRoll < ENEMY_SPAWN_RATE then
    Flat.enemies1 s ++
      [{ pos := createVector2 (t.spawnX * (GAME_WIDTH - ENEMY_SIZE))
                              (-ENEMY_SIZE)
         vel := createVector2 0 ENEMY_SPEED, size := ENEMY_SIZE }]
  else Flat.enemies1 s

/-- The star list after drift and recycling of a playing tick. -/
def Flat.stars1 (s : Flat.Game) (t : TickIn) : List Flat.Star :=
  s.stars.enum.map (fun p => Flat.moveStar t.starR p.1 p.2)

/-- Full characterization of a playing `update` tick of `part_000` through
the named intermediates above. -/
theorem flat_update_play_eq (s : Flat.Game) (t : TickIn)
    (hgo : ¬s.gameState = Phase.gameOver) :
    Flat.update s t =
      { s with
        score := (Flat.bulletEnemyPass s.score (Flat.bullets2 s t)
          (Flat.enemies2 s t)).1
        hp := (Flat.playerEnemyPass (Flat.player1 s t) s.hp s.gameState
          (Flat.bulletEnemyPass s.score (Flat.bullets2 s t)
            (Flat.enemies2 s t)).2.2).1
        gameState := (Flat.playerEnemyPass (Flat.player1 s t) s.hp s.gameState
          (Flat.bulletEnemyPass s.score (Flat.bullets2 s t)
            (Flat.enemies2 s t)).2.2).2.1
        player := Flat.player1 s t
        bullets := (Flat.bulletEnemyPass s.score (Flat.bullets2 s t)
          (Flat.enemies2 s t)).2.1
        enemies := (Flat.playerEnemyPass (Flat.player1 s t) s.hp s.gameState
          (Flat.bulletEnemyPass s.score (Flat.bullets2 s t)
            (Flat.enemies2 s t)).2.2).2.2
        stars := Flat.stars1 s t
        lastFireTime := if Flat.fire s t then t.now else s.lastFireTime } := by
  simp [Flat.update, hgo, Flat.player1, Flat.fire, Flat.bullets1,
    Flat.bullets2, Flat.enemies1, Flat.enemies2, Flat.stars1]

/-- Every state a `part_000` session can reach keeps the player (of size
`PLAYER_SIZE`) fully inside the playfield and keeps the score a nonnegative
multiple of 100.  (Unlike `page.tsx`, `0 ≤ hp` is **not** an invariant of
this implementation; see the hp counterexample below.) -/
theorem flat_reach_inv (s : Flat.Game) (h : Flat.Reach s) :
    s.player.size = PLAYER_SIZE ∧
    PLAYER_SIZE / 2 ≤ s.player.pos.x ∧
    s.player.pos.x ≤ GAME_WIDTH - PLAYER_SIZE / 2 ∧
    PLAYER_SIZE / 2 ≤ s.player.pos.y ∧
    s.player.pos.y ≤ GAME_HEIGHT - PLAYER_SIZE / 2 ∧
    0 ≤ s.score ∧ (100 : ℤ) ∣ s.score := by
  induction h with
  | init rs =>
    refine ⟨?_, ?_, ?_, ?_, ?_, le_refl 0, dvd_zero _⟩ <;>
      norm_num [Flat.init, Flat.initPlayer, PLAYER_SIZE, GAME_WIDTH,
        GAME_HEIGHT]
  | restart s rs hr ih =>
    refine ⟨?_, ?_, ?_, ?_, ?_, le_refl 0, dvd_zero _⟩ <;>
      norm_num [Flat.reset, Flat.initPlayer, PLAYER_SIZE, GAME_WIDTH,
        GAME_HEIGHT]
  | setInput s inp hr ih => exact ih
  | tick s t hr ih =>
    obtain ⟨hsz, hx1, hx2, hy1, hy2, hsc0, hscd⟩ := ih
    by_cases hgo : s.gameState = Phase.gameOver
    · rw [Flat.update_gameOver s t hgo]
      exact ⟨hsz, hx1, hx2, hy1, hy2, hsc0, hscd⟩
    · have hpl := Flat.update_play_player s t hgo
      have hsc : (Flat.update s t).score =
          (Flat.bulletEnemyPass s.score (Flat.bullets2 s t)
            (Flat.enemies2 s t)).1 := by
        rw [flat_update_play_eq s t hgo]
      obtain ⟨hm, hd⟩ := Flat.bulletEnemyPass_score s.score
        (Flat.bullets2 s t) (Flat.enemies2 s t)
      have hlohix : s.player.size / 2 ≤ GAME_WIDTH - s.player.size / 2 := by
        rw [hsz]; norm_num [PLAYER_SIZE, GAME_WIDTH]
      have hlohiy : s.player.size / 2 ≤ GAME_HEIGHT - s.player.size / 2 := by
        rw [hsz]; norm_num [PLAYER_SIZE, GAME_HEIGHT]
      have hcx := clamp_mem (s.player.pos.x +
          lerp s.player.vel.x (targetVel t.sq s.input s.player.pos).x 0.15)
        (s.player.size / 2) (GAME_WIDTH - s.player.size / 2) hlohix
      have hcy := clamp_mem (s.player.pos.y +
          lerp s.player.vel.y (targetVel t.sq s.input s.player.pos).y 0.15)
        (s.player.size / 2) (GAME_HEIGHT - s.player.size / 2) hlohiy
      refine ⟨?_, ?_, ?_, ?_, ?_, ?_, ?_⟩
      · rw [hpl]; exact hsz
      · rw [hpl]; simpa [hsz] using hcx.1
      · rw [hpl]; simpa [hsz] using hcx.2
      · rw [hpl]; simpa [hsz] using hcy.1
      · rw [hpl]; simpa [hsz] using hcy.2
      · rw [hsc]; omega
      · rw [hsc]
        have heq : (Flat.bulletEnemyPass s.score (Flat.bullets2 s t)
              (Flat.enemies2 s t)).1 =
            ((Flat.bulletEnemyPass s.score (Flat.bullets2 s t)
              (Flat.enemies2 s t)).1 - s.score) + s.score := by
          ring
        rw [heq]
        exact dvd_add hd hscd

/-! ### Tick-level consequences used by the claims -/

theorem ECS.update_gameOver_eq (s : ECS.Game) (t : TickIn)
    (h : s.gameState = Phase.gameOver) :
    ECS.updateAndRender s t = ECS.system_Movement t.starR t.dt s := by
  simp [ECS.updateAndRender, h]

theorem ECS.update_play_eq (s : ECS.Game) (t : TickIn)
    (h : ¬s.gameState = Phase.gameOver) :
    ECS.updateAndRender s t =
      ECS.system_Cleanup (ECS.system_Collision
        (ECS.system_Movement t.starR t.dt
          (ECS.system_EnemySpawn t.spawnRoll t.spawnX
            (ECS.system_Shooting (ECS.system_InputToPlayer t.sq s)
              t.now)))) := by
  simp [ECS.updateAndRender, h]

theorem ECS.moveBullet_id (dt : ℚ) (b b2 : ECS.Bullet)
    (h : ECS.moveBullet dt b = some b2) : b2.id = b.id := by
  by_cases hle : b.lifetime - dt ≤ 0
  · simp [ECS.moveBullet, hle] at h
  · simp [ECS.moveBullet, hle] at h
    rw [← h]

theorem ECS.moveBullet_lifetime (dt : ℚ) (b b2 : ECS.Bullet)
    (h : ECS.moveBullet dt b = some b2) : 0 < b2.lifetime := by
  by_cases hle : b.lifetime - dt ≤ 0
  · simp [ECS.moveBullet, hle] at h
  · simp [ECS.moveBullet, hle] at h
    rw [← h]
    simpa using lt_of_not_ge hle

theorem ECS.mov_enemy_ids (w : ℕ → ℚ × ℚ) (dt : ℚ) (s : ECS.Game) :
    (ECS.system_Movement w dt s).enemies.map ECS.Enemy.id =
      s.enemies.map ECS.Enemy.id := by
  rw [ECS.mov_enemies, List.map_map]
  rfl

theorem ECS.mov_bullet_ids (w : ℕ → ℚ × ℚ) (dt : ℚ) (s : ECS.Game) :
    ∀ b ∈ (ECS.system_Movement w dt s).bullets,
      b.id ∈ s.bullets.map ECS.Bullet.id := by
  intro b hb
  rw [ECS.mov_bullets] at hb
  rw [List.mem_filterMap] at hb
  obtain ⟨b0, hb0, hsome⟩ := hb
  rw [List.mem_map]
  exact ⟨b0, hb0, (ECS.moveBullet_id dt b0 b hsome).symm⟩

theorem ECS.shooting_nofire (s : ECS.Game) (now : ℚ)
    (h : ECS.fireCond s now = false) : ECS.system_Shooting s now = s := by
  simp [ECS.system_Shooting, h]

theorem ECS.fireCond_false (s : ECS.Game) (now : ℚ)
    (h : ¬(s.input.shoot = true ∧ now - s.lastFireTime ≥ BULLET_FIRE_RATE)) :
    ECS.fireCond s now = false := by
  unfold ECS.fireCond
  by_cases hs : s.input.shoot = true
  · have hlt : now - s.lastFireTime < BULLET_FIRE_RATE := by
      by_contra hge
      exact h ⟨hs, le_of_not_lt hge⟩
    simp [hs]
    linarith
  · simp [Bool.eq_false_iff.mpr hs]

/-- Without shoot intent or with less than the cooldown elapsed, a
`page.tsx` tick never adds a bullet (every phase of the tick only keeps or
drops bullets). -/
theorem ECS.update_nofire_len (s : ECS.Game) (t : TickIn)
    (h : ¬(s.input.shoot = true ∧
      t.now - s.lastFireTime ≥ BULLET_FIRE_RATE)) :
    (ECS.updateAndRender s t).bullets.length ≤ s.bullets.length := by
  by_cases hgo : s.gameState = Phase.gameOver
  · rw [ECS.update_gameOver_eq s t hgo, ECS.mov_bullets]
    exact List.length_filterMap_le _ _
  · rw [ECS.update_play_eq s t hgo]
    have hfc : ECS.fireCond (ECS.system_InputToPlayer t.sq s) t.now = false := by
      apply ECS.fireCond_false
      simpa using h
    rw [ECS.shooting_nofire _ _ hfc]
    rw [ECS.clean_bullets, ECS.col_bullets]
    calc ((ECS.system_Collision (ECS.system_Movement t.starR t.dt
            (ECS.system_EnemySpawn t.spawnRoll t.spawnX
              (ECS.system_InputToPlayer t.sq s)))).bullets.filter
              (fun b => !ECS.outOfBounds b.pos b.size)).length
        ≤ (ECS.system_Collision (ECS.system_Movement t.starR t.dt
            (ECS.system_EnemySpawn t.spawnRoll t.spawnX
              (ECS.system_InputToPlayer t.sq s)))).bullets.length :=
          List.length_filter_le _ _
      _ ≤ (ECS.system_Movement t.starR t.dt
            (ECS.system_EnemySpawn t.spawnRoll t.spawnX
              (ECS.system_InputToPlayer t.sq s))).bullets.length := by
          rw [ECS.col_bullets]
          exact List.length_filter_le _ _
      _ ≤ s.bullets.length := by
          rw [ECS.mov_bullets]
          have := List.length_filterMap_le (ECS.moveBullet t.dt)
            (ECS.system_EnemySpawn t.spawnRoll t.spawnX
              (ECS.system_InputToPlayer t.sq s)).bullets
          simpa using this

theorem Flat.bullet_fold_len (bs : List Flat.Bullet)
    (acc : ℤ × List Flat.Bullet × List Flat.Enemy) :
    ((bs.foldl Flat.bulletStep acc).2.1).length ≤
      acc.2.1.length + bs.length := by
  induction bs generalizing acc with
  | nil => simp
  | cons b bs ih =>
    simp only [List.foldl_cons]
    have hlen : (Flat.bulletStep acc b).2.1.length ≤ acc.2.1.length + 1 := by
      by_cases hw : b.owner = Flat.Owner.player
      · by_cases hh : (Flat.scanEnemies b acc.1 acc.2.2).2.2 = true
        · simp [Flat.bulletStep, hw, hh]
        · simp [Flat.bulletStep, hw, hh]
      · simp [Flat.bulletStep, hw]
    calc ((bs.foldl Flat.bulletStep (Flat.bulletStep acc b)).2.1).length
        ≤ (Flat.bulletStep acc b).2.1.length + bs.length := ih _
      _ ≤ acc.2.1.length + 1 + bs.length := by omega
      _ = acc.2.1.length + (b :: bs).length := by simp; omega

theorem Flat.fire_false (s : Flat.Game) (t : TickIn)
    (h : ¬(s.input.shoot = true ∧
      t.now - s.lastFireTime ≥ BULLET_FIRE_RATE)) :
    Flat.fire s t = false := by
  unfold Flat.fire
  by_cases hs : s.input.shoot = true
  · have hlt : t.now - s.lastFireTime < BULLET_FIRE_RATE := by
      by_contra hge
      exact h ⟨hs, le_of_not_lt hge⟩
    simp [hs]
    linarith
  · simp [Bool.eq_false_iff.mpr hs]

/-- Without shoot intent or with less than the cooldown elapsed, a
`part_000` tick never adds a bullet. -/
theorem flat_update_nofire_len (s : Flat.Game) (t : TickIn)
    (h : ¬(s.input.shoot = true ∧
      t.now - s.lastFireTime ≥ BULLET_FIRE_RATE)) :
    (Flat.update s t).bullets.length ≤ s.bullets.length := by
  by_cases hgo : s.gameState = Phase.gameOver
  · rw [Flat.update_gameOver s t hgo]
  · rw [flat_update_play_eq s t hgo]
    have hb1 : Flat.bullets1 s t = s.bullets := by
      unfold Flat.bullets1
      rw [Flat.fire_false s t h]
      simp
    have hb2 : (Flat.bullets2 s t).length ≤ s.bullets.length := by
      unfold Flat.bullets2
      rw [hb1]
      exact le_trans (List.length_filter_le _ _)
        (le_of_eq (List.length_map _ _))
    have := Flat.bullet_fold_len (Flat.bullets2 s t)
      ⟨s.score, [], Flat.enemies2 s t⟩
    simp only [List.length_nil] at this
    calc (Flat.bulletEnemyPass s.score (Flat.bullets2 s t)
            (Flat.enemies2 s t)).2.1.length
        ≤ 0 + (Flat.bullets2 s t).length := this
      _ ≤ s.bullets.length := by omega

/-- After a playing `part_000` tick every surviving bullet sits within the
`(-20, height + 20)` band and every surviving enemy above
`height + size + 10`. -/
theorem Flat.update_play_bounds (s : Flat.Game) (t : TickIn)
    (hgo : ¬s.gameState = Phase.gameOver) :
    (∀ b ∈ (Flat.update s t).bullets,
      -20 < b.pos.y ∧ b.pos.y < GAME_HEIGHT + 20) ∧
    (∀ e ∈ (Flat.update s t).enemies,
      e.pos.y < GAME_HEIGHT + e.size + 10) := by
  rw [flat_update_play_eq s t hgo]
  constructor
  · intro b hb
    simp only at hb
    have hmem := (Flat.bullet_fold_mem (Flat.bullets2 s t)
      ⟨s.score, [], Flat.enemies2 s t⟩).1 b hb
    rcases hmem with h | h
    · exact absurd h (List.not_mem_nil b)
    · unfold Flat.bullets2 at h
      have := List.of_mem_filter h
      simp at this
      exact this
  · intro e he
    simp only at he
    have hpp := (Flat.player_fold_spec (Flat.player1 s t)
      ((Flat.bulletEnemyPass s.score (Flat.bullets2 s t)
        (Flat.enemies2 s t)).2.2) ⟨s.hp, s.gameState, []⟩).2 e he
    rcases hpp with h | h
    · exact absurd h (List.not_mem_nil e)
    · have hbe := (Flat.bullet_fold_mem (Flat.bullets2 s t)
        ⟨s.score, [], Flat.enemies2 s t⟩).2 e h
      simp only at hbe
      unfold Flat.enemies2 at hbe
      by_cases hsp : t.spawnRoll < ENEMY_SPAWN_RATE
      · rw [if_pos hsp, List.mem_append] at hbe
        rcases hbe with h2 | h2
        · have := List.of_mem_filter h2
          simpa using this
        · simp at h2
          rw [h2]
          norm_num [GAME_HEIGHT, ENEMY_SIZE]
      · rw [if_neg hsp] at hbe
        have := List.of_mem_filter hbe
        simpa using this

/-- After a playing `page.tsx` tick no surviving bullet or enemy is out of
bounds (by the `size + 20` margin) and every surviving bullet has positive
remaining lifetime. -/
theorem ECS.update_play_evict (s : ECS.Game) (t : TickIn)
    (hgo : ¬s.gameState = Phase.gameOver) :
    (∀ b ∈ (ECS.updateAndRender s t).bullets,
      ECS.outOfBounds b.pos b.size = false ∧ 0 < b.lifetime) ∧
    (∀ e ∈ (ECS.updateAndRender s t).enemies,
      ECS.outOfBounds e.pos e.size = false) := by
  rw [ECS.update_play_eq s t hgo]
  constructor
  · intro b hb
    rw [ECS.clean_bullets] at hb
    have hcond := List.of_mem_filter hb
    have hmem := List.mem_of_mem_filter hb
    refine ⟨by simpa using hcond, ?_⟩
    rw [ECS.col_bullets] at hmem
    have hmem2 := List.mem_of_mem_filter hmem
    rw [ECS.mov_bullets, List.mem_filterMap] at hmem2
    obtain ⟨b0, _, hsome⟩ := hmem2
    exact ECS.moveBullet_lifetime _ _ _ hsome
  · intro e he
    rw [ECS.clean_enemies] at he
    simpa using List.of_mem_filter he

theorem ECS.update_score_mono (s : ECS.Game) (t : TickIn) :
    s.score ≤ (ECS.updateAndRender s t).score := by
  by_cases hgo : s.gameState = Phase.gameOver
  · rw [ECS.update_gameOver_eq s t hgo]
    simp
  · rw [ECS.update_play_eq s t hgo]
    simp only [ECS.clean_score, ECS.col_score]
    have h := (ECS.bullet_fold_spec
      (ECS.system_Movement t.starR t.dt
        (ECS.system_EnemySpawn t.spawnRoll t.spawnX
          (ECS.system_Shooting (ECS.system_InputToPlayer t.sq s) t.now))).enemies
      (ECS.system_Movement t.starR t.dt
        (ECS.system_EnemySpawn t.spawnRoll t.spawnX
          (ECS.system_Shooting (ECS.system_InputToPlayer t.sq s) t.now))).bullets
      ⟨(ECS.system_Movement t.starR t.dt
        (ECS.system_EnemySpawn t.spawnRoll t.spawnX
          (ECS.system_Shooting (ECS.system_InputToPlayer t.sq s) t.now))).score,
        [], []⟩).1
    simp only at h
    rw [h]
    simp only [ECS.mov_score, ECS.spawn_score, ECS.shoot_score, ECS.sIP_score]
    have : (0 : ℤ) ≤ 100 * ((ECS.system_Movement t.starR t.dt
        (ECS.system_EnemySpawn t.spawnRoll t.spawnX
          (ECS.system_Shooting (ECS.system_InputToPlayer t.sq s) t.now))).bullets.countP
        (fun b => (ECS.findHit b (ECS.system_Movement t.starR t.dt
          (ECS.system_EnemySpawn t.spawnRoll t.spawnX
            (ECS.system_Shooting (ECS.system_InputToPlayer t.sq s) t.now))).enemies).isSome) : ℤ) := by
      positivity
    omega

theorem ECS.update_hp_mono (s : ECS.Game) (t : TickIn) (h0 : 0 ≤ s.hp) :
    (ECS.updateAndRender s t).hp ≤ s.hp := by
  by_cases hgo : s.gameState = Phase.gameOver
  · rw [ECS.update_gameOver_eq s t hgo]
    simp
  · rw [ECS.update_play_eq s t hgo]
    simp only [ECS.clean_hp, ECS.col_hp]
    have h := (ECS.collide_fold_spec
      (ECS.system_Movement t.starR t.dt
        (ECS.system_EnemySpawn t.spawnRoll t.spawnX
          (ECS.system_Shooting (ECS.system_InputToPlayer t.sq s) t.now))).playerPos
      (ECS.system_Movement t.starR t.dt
        (ECS.system_EnemySpawn t.spawnRoll t.spawnX
          (ECS.system_Shooting (ECS.system_InputToPlayer t.sq s) t.now))).playerSize
      (ECS.system_Movement t.starR t.dt
        (ECS.system_EnemySpawn t.spawnRoll t.spawnX
          (ECS.system_Shooting (ECS.system_InputToPlayer t.sq s) t.now))).enemies
      ⟨(ECS.system_Movement t.starR t.dt
        (ECS.system_EnemySpawn t.spawnRoll t.spawnX
          (ECS.system_Shooting (ECS.system_InputToPlayer t.sq s) t.now))).hp,
        (ECS.system_Movement t.starR t.dt
          (ECS.system_EnemySpawn t.spawnRoll t.spawnX
            (ECS.system_Shooting (ECS.system_InputToPlayer t.sq s) t.now))).gameState,
        []⟩ (by simpa using h0)).2.1
    simp only at h
    simpa using h

theorem flat_update_hp_mono (s : Flat.Game) (t : TickIn) :
    (Flat.update s t).hp ≤ s.hp := by
  by_cases hgo : s.gameState = Phase.gameOver
  · rw [Flat.update_gameOver s t hgo]
  · rw [flat_update_play_eq s t hgo]
    exact (Flat.player_fold_spec (Flat.player1 s t)
      ((Flat.bulletEnemyPass s.score (Flat.bullets2 s t)
        (Flat.enemies2 s t)).2.2) ⟨s.hp, s.gameState, []⟩).1

theorem flat_update_score_mono (s : Flat.Game) (t : TickIn) :
    s.score ≤ (Flat.update s t).score := by
  by_cases hgo : s.gameState = Phase.gameOver
  · rw [Flat.update_gameOver s t hgo]
  · rw [flat_update_play_eq s t hgo]
    exact (Flat.bulletEnemyPass_score s.score (Flat.bullets2 s t)
      (Flat.enemies2 s t)).1

theorem ECS.reach_run (f : ℕ → TickIn) (s : ECS.Game) (h : ECS.Reach s) :
    ∀ n, ECS.Reach (ECS.run f s n)
  | 0 => h
  | n + 1 => ECS.Reach.tick _ _ (ECS.reach_run f s h n)

theorem flat_reach_run (f : ℕ → TickIn) (s : Flat.Game) (h : Flat.Reach s) :
    ∀ n, Flat.Reach (Flat.run f s n)
  | 0 => h
  | n + 1 => Flat.Reach.tick _ _ (flat_reach_run f s h n)

/-! ### Running a session from an arbitrary tick index

`runFrom f s k n` runs `n` consecutive ticks starting at tick index `k`
(so it consumes the inputs `f k, ..., f (k + n - 1)`); `run f s n` is
`runFrom f s 1 n`.  These are used to evaluate long concrete sessions in
bounded slices. -/

def ECS.runFrom (f : ℕ → TickIn) (s : ECS.Game) (k : ℕ) : ℕ → ECS.Game
  | 0 => s
  | n + 1 => ECS.updateAndRender (ECS.runFrom f s k n) (f (k + n))

def Flat.runFrom (f : ℕ → TickIn) (s : Flat.Game) (k : ℕ) : ℕ → Flat.Game
  | 0 => s
  | n + 1 => Flat.update (Flat.runFrom f s k n) (f (k + n))

theorem ECS.run_eq_runFrom (f : ℕ → TickIn) (s : ECS.Game) :
    ∀ n, ECS.run f s n = ECS.runFrom f s 1 n := by
  intro n
  induction n with
  | zero => rfl
  | succ n ih =>
    show ECS.updateAndRender (ECS.run f s n) (f (n + 1)) =
      ECS.updateAndRender (ECS.runFrom f s 1 n) (f (1 + n))
    rw [ih, Nat.add_comm 1 n]

theorem flat_run_eq_runFrom (f : ℕ → TickIn) (s : Flat.Game) :
    ∀ n, Flat.run f s n = Flat.runFrom f s 1 n := by
  intro n
  induction n with
  | zero => rfl
  | succ n ih =>
    show Flat.update (Flat.run f s n) (f (n + 1)) =
      Flat.update (Flat.runFrom f s 1 n) (f (1 + n))
    rw [ih, Nat.add_comm 1 n]

theorem ECS.runFrom_add (f : ℕ → TickIn) (s : ECS.Game) (k m : ℕ) :
    ∀ n, ECS.runFrom f s k (m + n) =
      ECS.runFrom f (ECS.runFrom f s k m) (k + m) n := by
  intro n
  induction n with
  | zero => rfl
  | succ n ih =>
    show ECS.updateAndRender (ECS.runFrom f s k (m + n)) (f (k + (m + n))) =
      ECS.updateAndRender (ECS.runFrom f (ECS.runFrom f s k m) (k + m) n)
        (f (k + m + n))
    rw [ih, Nat.add_assoc]

theorem flat_runFrom_add (f : ℕ → TickIn) (s : Flat.Game) (k m : ℕ) :
    ∀ n, Flat.runFrom f s k (m + n) =
      Flat.runFrom f (Flat.runFrom f s k m) (k + m) n := by
  intro n
  induction n with
  | zero => rfl
  | succ n ih =>
    show Flat.update (Flat.runFrom f s k (m + n)) (f (k + (m + n))) =
      Flat.update (Flat.runFrom f (Flat.runFrom f s k m) (k + m) n)
        (f (k + m + n))
    rw [ih, Nat.add_assoc]

/-! ### Evaluating the concrete sessions

The arithmetic operations on `Rat` are `@[irreducible]` in Batteries, which
blocks `decide`; restore default reducibility for them in this file. -/

attribute [local semireducible] Rat.add Rat.sub Rat.mul Rat.inv
  Rat.ofScientific

/-! The stars never influence any other part of the state (they are only
drawn), so long concrete sessions are evaluated on the star-free `core` of
the state: `core` commutes with ticks up to the dropped star field. -/

def Flat.core (s : Flat.Game) : Flat.Game := { s with stars := [] }

@[simp] theorem flat_core_hp (s : Flat.Game) : (Flat.core s).hp = s.hp := rfl

@[simp] theorem flat_core_gameState (s : Flat.Game) :
    (Flat.core s).gameState = s.gameState := rfl

@[simp] theorem flat_core_score (s : Flat.Game) :
    (Flat.core s).score = s.score := rfl

def ECS.core (s : ECS.Game) : ECS.Game := { s with stars := [] }

@[simp] theorem ECS.core_hp (s : ECS.Game) : (ECS.core s).hp = s.hp := rfl

@[simp] theorem ECS.core_gameState (s : ECS.Game) :
    (ECS.core s).gameState = s.gameState := rfl

@[simp] theorem ECS.core_score (s : ECS.Game) :
    (ECS.core s).score = s.score := rfl

@[simp] theorem ECS.core_enemies (s : ECS.Game) :
    (ECS.core s).enemies = s.enemies := rfl

@[simp] theorem ECS.core_bullets (s : ECS.Game) :
    (ECS.core s).bullets = s.bullets := rfl

@[simp] theorem ECS.core_nextId (s : ECS.Game) :
    (ECS.core s).nextId = s.nextId := rfl

theorem flat_core_update_setStars (s : Flat.Game) (X : List Flat.Star)
    (t : TickIn) :
    Flat.core (Flat.update { s with stars := X } t) =
    Flat.core (Flat.update s t) := by
  by_cases hgo : s.gameState = Phase.gameOver
  · have hgo2 : ({ s with stars := X } : Flat.Game).gameState =
      Phase.gameOver := hgo
    rw [Flat.update_gameOver _ _ hgo, Flat.update_gameOver _ _ hgo2]
    rfl
  · have hgo2 : ¬({ s with stars := X } : Flat.Game).gameState =
      Phase.gameOver := hgo
    rw [flat_update_play_eq _ _ hgo, flat_update_play_eq _ _ hgo2]
    rfl

theorem ECS.sIP_setStars (q : ℚ → ℚ) (s : ECS.Game) (X : List ECS.Star) :
    ECS.system_InputToPlayer q { s with stars := X } =
    { ECS.system_InputToPlayer q s with stars := X } := rfl

theorem ECS.shoot_setStars (s : ECS.Game) (now : ℚ) (X : List ECS.Star) :
    ECS.system_Shooting { s with stars := X } now =
    { ECS.system_Shooting s now with stars := X } := by
  have hc : ECS.fireCond { s with stars := X } now = ECS.fireCond s now := rfl
  by_cases hf : ECS.fireCond s now = true
  · simp only [ECS.system_Shooting, hc, hf, if_true]
  · simp only [ECS.system_Shooting, hc, hf, if_false, Bool.false_eq_true]

theorem ECS.spawn_setStars (r x : ℚ) (s : ECS.Game) (X : List ECS.Star) :
    ECS.system_EnemySpawn r x { s with stars := X } =
    { ECS.system_EnemySpawn r x s with stars := X } := by
  by_cases hs : r < ENEMY_SPAWN_RATE
  · simp only [ECS.system_EnemySpawn, if_pos hs]
  · simp only [ECS.system_EnemySpawn, if_neg hs]

theorem ECS.mov_setStars (w : ℕ → ℚ × ℚ) (dt : ℚ) (s : ECS.Game)
    (X : List ECS.Star) :
    ECS.system_Movement w dt { s with stars := X } =
    { ECS.system_Movement w dt s with
      stars := X.enum.map (fun p => ECS.moveStar w p.1 p.2) } := rfl

theorem ECS.col_setStars (s : ECS.Game) (X : List ECS.Star) :
    ECS.system_Collision { s with stars := X } =
    { ECS.system_Collision s with stars := X } := rfl

theorem ECS.clean_setStars (s : ECS.Game) (X : List ECS.Star) :
    ECS.system_Cleanup { s with stars := X } =
    { ECS.system_Cleanup s with stars := X } := rfl

theorem ECS.core_update_setStars (s : ECS.Game) (X : List ECS.Star)
    (t : TickIn) :
    ECS.core (ECS.updateAndRender { s with stars := X } t) =
    ECS.core (ECS.updateAndRender s t) := by
  by_cases hgo : s.gameState = Phase.gameOver
  · have hgo2 : ({ s with stars := X } : ECS.Game).gameState =
      Phase.gameOver := hgo
    rw [ECS.update_gameOver_eq _ _ hgo, ECS.update_gameOver_eq _ _ hgo2,
      ECS.mov_setStars]
    rfl
  · have hgo2 : ¬({ s with stars := X } : ECS.Game).gameState =
      Phase.gameOver := hgo
    rw [ECS.update_play_eq _ _ hgo, ECS.update_play_eq _ _ hgo2,
      ECS.sIP_setStars, ECS.shoot_setStars, ECS.spawn_setStars,
      ECS.mov_setStars, ECS.col_setStars, ECS.clean_setStars]
    rfl

theorem flat_core_congr_update {A B : Flat.Game}
    (h : Flat.core A = Flat.core B) (t : TickIn) :
    Flat.core (Flat.update A t) = Flat.core (Flat.update B t) :=
  calc Flat.core (Flat.update A t)
      = Flat.core (Flat.update { Flat.core A with stars := A.stars } t) := rfl
    _ = Flat.core (Flat.update (Flat.core A) t) :=
        flat_core_update_setStars _ _ _
    _ = Flat.core (Flat.update (Flat.core B) t) := by rw [h]
    _ = Flat.core (Flat.update { Flat.core B with stars := B.stars } t) :=
        (flat_core_update_setStars _ _ _).symm
    _ = Flat.core (Flat.update B t) := rfl

theorem ECS.core_congr_update {A B : ECS.Game}
    (h : ECS.core A = ECS.core B) (t : TickIn) :
    ECS.core (ECS.updateAndRender A t) = ECS.core (ECS.updateAndRender B t) :=
  calc ECS.core (ECS.updateAndRender A t)
      = ECS.core (ECS.updateAndRender { ECS.core A with stars := A.stars } t) :=
        rfl
    _ = ECS.core (ECS.updateAndRender (ECS.core A) t) :=
        ECS.core_update_setStars _ _ _
    _ = ECS.core (ECS.updateAndRender (ECS.core B) t) := by rw [h]
    _ = ECS.core (ECS.updateAndRender { ECS.core B with stars := B.stars } t) :=
        (ECS.core_update_setStars _ _ _).symm
    _ = ECS.core (ECS.updateAndRender B t) := rfl

theorem flat_core_congr_runFrom {A B : Flat.Game}
    (h : Flat.core A = Flat.core B) (f : ℕ → TickIn) (k : ℕ) :
    ∀ n, Flat.core (Flat.runFrom f A k n) = Flat.core (Flat.runFrom f B k n)
  | 0 => h
  | n + 1 => flat_core_congr_update (flat_core_congr_runFrom h f k n) (f (k + n))

theorem ECS.core_congr_runFrom {A B : ECS.Game}
    (h : ECS.core A = ECS.core B) (f : ℕ → TickIn) (k : ℕ) :
    ∀ n, ECS.core (ECS.runFrom f A k n) = ECS.core (ECS.runFrom f B k n)
  | 0 => h
  | n + 1 => ECS.core_congr_update (ECS.core_congr_runFrom h f k n) (f (k + n))

theorem ECS.runFrom_succ_left (f : ℕ → TickIn) (s : ECS.Game) (k : ℕ) :
    ∀ m, ECS.runFrom f s k (m + 1) =
      ECS.runFrom f (ECS.updateAndRender s (f k)) (k + 1) m
  | 0 => rfl
  | m + 1 => by
    show ECS.updateAndRender (ECS.runFrom f s k (m + 1)) (f (k + (m + 1))) =
      ECS.updateAndRender
        (ECS.runFrom f (ECS.updateAndRender s (f k)) (k + 1) m)
        (f (k + 1 + m))
    rw [ECS.runFrom_succ_left f s k m, show k + (m + 1) = k + 1 + m from by
      omega]

theorem fireTicks_add (f : ℕ → TickIn) (m : ℕ) :
    ∀ (s : ECS.Game) (k n : ℕ),
      fireTicks f s k (m + n) =
        fireTicks f s k m ++ fireTicks f (ECS.runFrom f s k m) (k + m) n := by
  induction m with
  | zero =>
    intro s k n
    rw [Nat.zero_add]
    rfl
  | succ m ih =>
    intro s k n
    rw [show m + 1 + n = (m + n) + 1 from by omega]
    show (if s.gameState = Phase.playing ∧ ECS.fireCond s (f k).now = true
        then [k] else []) ++
      fireTicks f (ECS.updateAndRender s (f k)) (k + 1) (m + n) =
      ((if s.gameState = Phase.playing ∧ ECS.fireCond s (f k).now = true
        then [k] else []) ++
        fireTicks f (ECS.updateAndRender s (f k)) (k + 1) m) ++
      fireTicks f (ECS.runFrom f s k (m + 1)) (k + (m + 1)) n
    rw [ih (ECS.updateAndRender s (f k)) (k + 1) n, List.append_assoc,
      ECS.runFrom_succ_left f s k m,
      show k + (m + 1) = k + 1 + m from by omega]

theorem fireTicks_core_congr (f : ℕ → TickIn) (n : ℕ) :
    ∀ {A B : ECS.Game}, ECS.core A = ECS.core B → ∀ k,
      fireTicks f A k n = fireTicks f B k n := by
  induction n with
  | zero =>
    intro A B h k
    rfl
  | succ n ih =>
    intro A B h k
    have hgs : A.gameState = B.gameState :=
      show (ECS.core A).gameState = (ECS.core B).gameState from
        congrArg ECS.Game.gameState h
    have hi : A.input = B.input :=
      show (ECS.core A).input = (ECS.core B).input from
        congrArg ECS.Game.input h
    have hl : A.lastFireTime = B.lastFireTime :=
      show (ECS.core A).lastFireTime = (ECS.core B).lastFireTime from
        congrArg ECS.Game.lastFireTime h
    have hfc : ECS.fireCond A (f k).now = ECS.fireCond B (f k).now := by
      unfold ECS.fireCond
      rw [hi, hl]
    show (if A.gameState = Phase.playing ∧ ECS.fireCond A (f k).now = true
        then [k] else []) ++
      fireTicks f (ECS.updateAndRender A (f k)) (k + 1) n =
      (if B.gameState = Phase.playing ∧ ECS.fireCond B (f k).now = true
        then [k] else []) ++
      fireTicks f (ECS.updateAndRender B (f k)) (k + 1) n
    rw [hgs, hfc, ih (ECS.core_congr_update h (f k)) (k + 1)]

/-- Star-free core of the `part_000` hp session after 120 ticks. -/
def hpC120 : Flat.Game :=
  { score := 0, hp := 3, gameState := Phase.playing
    player := ⟨⟨160, 508⟩, ⟨0, 0⟩, 20, 3⟩
    bullets := []
    enemies := [⟨⟨160, 325/2⟩, ⟨0, 3/2⟩, 16⟩, ⟨⟨160, 161⟩, ⟨0, 3/2⟩, 16⟩,
                ⟨⟨355/2, 319/2⟩, ⟨0, 3/2⟩, 16⟩, ⟨⟨160, 146⟩, ⟨0, 3/2⟩, 16⟩]
    stars := []
    input := ⟨false, false, false, false, false, false, ⟨160, 284⟩⟩
    lastFireTime := 0 }

/-- Star-free core of the `part_000` hp session after 240 ticks. -/
def hpC240 : Flat.Game :=
  { hpC120 with
    enemies := [⟨⟨160, 685/2⟩, ⟨0, 3/2⟩, 16⟩, ⟨⟨160, 341⟩, ⟨0, 3/2⟩, 16⟩,
                ⟨⟨355/2, 679/2⟩, ⟨0, 3/2⟩, 16⟩, ⟨⟨160, 326⟩, ⟨0, 3/2⟩, 16⟩] }

set_option maxRecDepth 40000 in
theorem hpC120_eq : Flat.core (Flat.runFrom tinsHp (Flat.init rs0) 1 120) =
    Flat.core hpC120 := by decide

set_option maxRecDepth 40000 in
theorem hpC240_eq : Flat.core (Flat.runFrom tinsHp hpC120 121 120) =
    Flat.core hpC240 := by decide

set_option maxRecDepth 400000 in
theorem hpC350_facts : (Flat.runFrom tinsHp hpC240 241 110).hp = -1 ∧
    (Flat.runFrom tinsHp hpC240 241 110).gameState = Phase.gameOver := by
  decide

/-- Core of the hp session after all 350 ticks, through the two slices. -/
theorem hpC350_chain : Flat.core (Flat.run tinsHp (Flat.init rs0) 350) =
    Flat.core (Flat.runFrom tinsHp hpC240 241 110) := by
  rw [flat_run_eq_runFrom, show (350 : ℕ) = 120 + 230 from rfl,
    flat_runFrom_add, show (1 : ℕ) + 120 = 121 from rfl,
    show (230 : ℕ) = 120 + 110 from rfl, flat_runFrom_add,
    show (121 : ℕ) + 120 = 241 from rfl]
  exact flat_core_congr_runFrom
    ((flat_core_congr_runFrom hpC120_eq tinsHp 121 120).trans hpC240_eq)
    tinsHp 241 110

/-- After 350 ticks of the hp session, `part_000` reports `hp = -1` in the
game-over phase. -/
theorem run350_facts : (Flat.run tinsHp (Flat.init rs0) 350).hp = -1 ∧
    (Flat.run tinsHp (Flat.init rs0) 350).gameState = Phase.gameOver := by
  have h1 := congrArg Flat.Game.hp hpC350_chain
  have h2 := congrArg Flat.Game.gameState hpC350_chain
  simp only [flat_core_hp, flat_core_gameState] at h1 h2
  exact ⟨h1.trans hpC350_facts.1, h2.trans hpC350_facts.2⟩

/-- Star-free core of the `page.tsx` eviction session after 110 ticks. -/
def evC110 : ECS.Game :=
  { nextId := 57
    playerPos := ⟨160, 508⟩
    playerVel := ⟨0, 0⟩
    playerSize := 20
    bullets := []
    enemies := [⟨53, ⟨160, 149⟩, ⟨0, 3/2⟩, 16⟩, ⟨54, ⟨160, 295/2⟩, ⟨0, 3/2⟩, 16⟩,
                ⟨55, ⟨160, 146⟩, ⟨0, 3/2⟩, 16⟩, ⟨56, ⟨300, 289/2⟩, ⟨0, 3/2⟩, 16⟩]
    stars := []
    input := ⟨false, false, false, false, false, false, ⟨160, 508⟩⟩
    score := 0
    hp := 3
    gameState := Phase.playing
    lastFireTime := 0 }

/-- Star-free core of the eviction session after 220 ticks. -/
def evC220 : ECS.Game :=
  { evC110 with
    enemies := [⟨53, ⟨160, 314⟩, ⟨0, 3/2⟩, 16⟩, ⟨54, ⟨160, 625/2⟩, ⟨0, 3/2⟩, 16⟩,
                ⟨55, ⟨160, 311⟩, ⟨0, 3/2⟩, 16⟩, ⟨56, ⟨300, 619/2⟩, ⟨0, 3/2⟩, 16⟩] }

/-- Star-free core of the eviction session after 330 ticks. -/
def evC330 : ECS.Game :=
  { evC110 with
    enemies := [⟨53, ⟨160, 479⟩, ⟨0, 3/2⟩, 16⟩, ⟨54, ⟨160, 955/2⟩, ⟨0, 3/2⟩, 16⟩,
                ⟨55, ⟨160, 476⟩, ⟨0, 3/2⟩, 16⟩, ⟨56, ⟨300, 949/2⟩, ⟨0, 3/2⟩, 16⟩] }

set_option maxRecDepth 100000 in
theorem evC110_eq : ECS.core (ECS.runFrom tinsEvict (ECS.init rs0 0) 1 110) =
    ECS.core evC110 := by decide

set_option maxRecDepth 100000 in
theorem evC220_eq : ECS.core (ECS.runFrom tinsEvict evC110 111 110) =
    ECS.core evC220 := by decide

set_option maxRecDepth 100000 in
theorem evC330_eq : ECS.core (ECS.runFrom tinsEvict evC220 221 110) =
    ECS.core evC330 := by decide

set_option maxRecDepth 100000 in
theorem ev417_facts : (ECS.runFrom tinsEvict evC330 331 87).enemies =
      [⟨56, ⟨300, 605⟩, ⟨0, 3/2⟩, 16⟩] ∧
    (ECS.runFrom tinsEvict evC330 331 87).gameState = Phase.gameOver := by
  decide

set_option maxRecDepth 100000 in
theorem ev419_facts : (ECS.runFrom tinsEvict evC330 331 89).enemies =
      [⟨56, ⟨300, 608⟩, ⟨0, 3/2⟩, 16⟩] := by decide

/-- Core of the eviction session after 330 ticks, through the slices. -/
theorem evict_chain_330 :
    ECS.core (ECS.runFrom tinsEvict (ECS.init rs0 0) 1 330) =
    ECS.core evC330 := by
  rw [show (330 : ℕ) = 110 + 220 from rfl, ECS.runFrom_add,
    show (1 : ℕ) + 110 = 111 from rfl,
    show (220 : ℕ) = 110 + 110 from rfl, ECS.runFrom_add,
    show (111 : ℕ) + 110 = 221 from rfl]
  exact (ECS.core_congr_runFrom
    ((ECS.core_congr_runFrom evC110_eq tinsEvict 111 110).trans evC220_eq)
    tinsEvict 221 110).trans evC330_eq

theorem ev417_chain : ECS.core (ECS.run tinsEvict (ECS.init rs0 0) 417) =
    ECS.core (ECS.runFrom tinsEvict evC330 331 87) := by
  rw [ECS.run_eq_runFrom, show (417 : ℕ) = 330 + 87 from rfl,
    ECS.runFrom_add, show (1 : ℕ) + 330 = 331 from rfl]
  exact ECS.core_congr_runFrom evict_chain_330 tinsEvict 331 87

theorem ev419_chain : ECS.core (ECS.run tinsEvict (ECS.init rs0 0) 419) =
    ECS.core (ECS.runFrom tinsEvict evC330 331 89) := by
  rw [ECS.run_eq_runFrom, show (419 : ℕ) = 330 + 89 from rfl,
    ECS.runFrom_add, show (1 : ℕ) + 330 = 331 from rfl]
  exact ECS.core_congr_runFrom evict_chain_330 tinsEvict 331 89

/-- In the eviction session, enemy 56 leaves the `y ≤ 604` cleanup band at
tick 417 (y = 605 > 568 + 16 + 20), the phase is game over, and two ticks
later the enemy is still in the store (y = 608): `system_Cleanup` does not
run during game over. -/
theorem evict_run_facts :
    (ECS.run tinsEvict (ECS.init rs0 0) 417).enemies =
      [⟨56, ⟨300, 605⟩, ⟨0, 3/2⟩, 16⟩] ∧
    (ECS.run tinsEvict (ECS.init rs0 0) 417).gameState = Phase.gameOver ∧
    (ECS.run tinsEvict (ECS.init rs0 0) 419).enemies =
      [⟨56, ⟨300, 608⟩, ⟨0, 3/2⟩, 16⟩] := by
  have h1 := congrArg ECS.Game.enemies ev417_chain
  have h2 := congrArg ECS.Game.gameState ev417_chain
  have h3 := congrArg ECS.Game.enemies ev419_chain
  simp only [ECS.core_enemies, ECS.core_gameState] at h1 h2 h3
  exact ⟨h1.trans ev417_facts.1, h2.trans ev417_facts.2,
    h3.trans ev419_facts⟩

/-- Star-free core of the firing session after 100 ticks. -/
def fireC100 : ECS.Game :=
  { nextId := 53
    playerPos := ⟨160, 508⟩
    playerVel := ⟨0, 0⟩
    playerSize := 20
    bullets := []
    enemies := []
    stars := []
    input := ⟨false, false, false, false, true, false, ⟨160, 508⟩⟩
    score := 0
    hp := 3
    gameState := Phase.playing
    lastFireTime := 0 }

/-- Star-free core of the firing session after 200 ticks (bullet 53, fired
at 121 ms, has already left through the top and been cleaned up). -/
def fireC200 : ECS.Game :=
  { fireC100 with nextId := 54, lastFireTime := 121 }

/-- Star-free core of the firing session after 300 ticks. -/
def fireC300 : ECS.Game :=
  { fireC100 with
    nextId := 55
    bullets := [⟨54, ⟨160, 95⟩, ⟨0, -7⟩, 4, 2941⟩]
    lastFireTime := 242 }

/-- Star-free core of the firing session after 400 ticks. -/
def fireC400 : ECS.Game :=
  { fireC100 with
    nextId := 56
    bullets := [⟨55, ⟨160, 242⟩, ⟨0, -7⟩, 4, 2962⟩]
    lastFireTime := 363 }

/-! The first conjuncts of the four `fireC*_eq` theorems below are
intermediate self-equalities: deciding them forces the 25/50/75-tick states
into the evaluator's cache, keeping the recursion depth of the final
conjunct's 100-tick evaluation bounded. -/

set_option maxRecDepth 100000 in
theorem fireC100_eq :
    (ECS.core (ECS.runFrom tinsFire shootStart 1 25) =
        ECS.core (ECS.runFrom tinsFire shootStart 1 25) ∧
      ECS.core (ECS.runFrom tinsFire shootStart 1 50) =
        ECS.core (ECS.runFrom tinsFire shootStart 1 50) ∧
      ECS.core (ECS.runFrom tinsFire shootStart 1 75) =
        ECS.core (ECS.runFrom tinsFire shootStart 1 75)) ∧
    ECS.core (ECS.runFrom tinsFire shootStart 1 100) =
      ECS.core fireC100 := by decide

set_option maxRecDepth 100000 in
theorem fireC200_eq :
    (ECS.core (ECS.runFrom tinsFire fireC100 101 25) =
        ECS.core (ECS.runFrom tinsFire fireC100 101 25) ∧
      ECS.core (ECS.runFrom tinsFire fireC100 101 50) =
        ECS.core (ECS.runFrom tinsFire fireC100 101 50) ∧
      ECS.core (ECS.runFrom tinsFire fireC100 101 75) =
        ECS.core (ECS.runFrom tinsFire fireC100 101 75)) ∧
    ECS.core (ECS.runFrom tinsFire fireC100 101 100) =
      ECS.core fireC200 := by decide

set_option maxRecDepth 100000 in
theorem fireC300_eq :
    (ECS.core (ECS.runFrom tinsFire fireC200 201 25) =
        ECS.core (ECS.runFrom tinsFire fireC200 201 25) ∧
      ECS.core (ECS.runFrom tinsFire fireC200 201 50) =
        ECS.core (ECS.runFrom tinsFire fireC200 201 50) ∧
      ECS.core (ECS.runFrom tinsFire fireC200 201 75) =
        ECS.core (ECS.runFrom tinsFire fireC200 201 75)) ∧
    ECS.core (ECS.runFrom tinsFire fireC200 201 100) =
      ECS.core fireC300 := by decide

set_option maxRecDepth 100000 in
theorem fireC400_eq :
    (ECS.core (ECS.runFrom tinsFire fireC300 301 25) =
        ECS.core (ECS.runFrom tinsFire fireC300 301 25) ∧
      ECS.core (ECS.runFrom tinsFire fireC300 301 50) =
        ECS.core (ECS.runFrom tinsFire fireC300 301 50) ∧
      ECS.core (ECS.runFrom tinsFire fireC300 301 75) =
        ECS.core (ECS.runFrom tinsFire fireC300 301 75)) ∧
    ECS.core (ECS.runFrom tinsFire fireC300 301 100) =
      ECS.core fireC400 := by decide

set_option maxRecDepth 100000 in
theorem fireT1 : fireTicks tinsFire shootStart 1 100 = [] := by decide

set_option maxRecDepth 100000 in
theorem fireT2 : fireTicks tinsFire fireC100 101 100 = [121] := by decide

set_option maxRecDepth 100000 in
theorem fireT3 : fireTicks tinsFire fireC200 201 100 = [242] := by decide

set_option maxRecDepth 100000 in
theorem fireT4 : fireTicks tinsFire fireC300 301 100 = [363] := by decide

set_option maxRecDepth 100000 in
theorem fireT5 : fireTicks tinsFire fireC400 401 100 = [484] := by decide

/-- Holding shoot for 500 one-millisecond ticks fires exactly at wall-clock
times 121, 242, 363 and 484 ms. -/
theorem fireTicks_500 : fireTicks tinsFire shootStart 1 500 =
    [121, 242, 363, 484] := by
  rw [show (500 : ℕ) = 100 + 400 from rfl,
    fireTicks_add tinsFire 100 shootStart 1 400,
    show (1 : ℕ) + 100 = 101 from rfl,
    fireTicks_core_congr tinsFire 400 fireC100_eq.2 101,
    show (400 : ℕ) = 100 + 300 from rfl,
    fireTicks_add tinsFire 100 fireC100 101 300,
    show (101 : ℕ) + 100 = 201 from rfl,
    fireTicks_core_congr tinsFire 300 fireC200_eq.2 201,
    show (300 : ℕ) = 100 + 200 from rfl,
    fireTicks_add tinsFire 100 fireC200 201 200,
    show (201 : ℕ) + 100 = 301 from rfl,
    fireTicks_core_congr tinsFire 200 fireC300_eq.2 301,
    show (200 : ℕ) = 100 + 100 from rfl,
    fireTicks_add tinsFire 100 fireC300 301 100,
    show (301 : ℕ) + 100 = 401 from rfl,
    fireTicks_core_congr tinsFire 100 fireC400_eq.2 401,
    fireT1, fireT2, fireT3, fireT4, fireT5]
  rfl

/-! ### Auxiliary concrete states and run lemmas for the claims -/

theorem ECS.run_succ_succ (f : ℕ → TickIn) (s : ECS.Game) (n : ℕ) :
    ECS.run f s (n + 2) = ECS.updateAndRender
      (ECS.updateAndRender (ECS.run f s n) (f (n + 1))) (f (n + 2)) := rfl

/-- A small `part_000` state with a single in-flight enemy. -/
def flatEnemyState : Flat.Game :=
  { score := 0, hp := 3, gameState := Phase.playing
    player := Flat.initPlayer
    bullets := []
    enemies := [⟨⟨100, 100⟩, ⟨0, 3/2⟩, 16⟩]
    stars := []
    input := ⟨false, false, false, false, false, false, ⟨160, 284⟩⟩
    lastFireTime := 0 }

/-- A `part_000` game-over state. -/
def goFlat : Flat.Game :=
  { flatEnemyState with gameState := Phase.gameOver, hp := 0 }

/-- A `part_000` state whose single player bullet overlaps two enemies at
once after the integration step of the next tick: the bullet moves to
y = 250 and the enemies to y = 247 and y = 253, both within distance 3 < 10
of the bullet. -/
def cex4 : Flat.Game :=
  { score := 0, hp := 3, gameState := Phase.playing
    player := Flat.initPlayer
    bullets := [⟨⟨100, 257⟩, ⟨0, -7⟩, 4, Flat.Owner.player⟩]
    enemies := [⟨⟨100, 491/2⟩, ⟨0, 3/2⟩, 16⟩, ⟨⟨100, 503/2⟩, ⟨0, 3/2⟩, 16⟩]
    stars := []
    input := ⟨false, false, false, false, false, false, ⟨160, 284⟩⟩
    lastFireTime := 0 }

/-! ### The claims -/

/-- C1: in `page.tsx` every reachable state keeps `0 ≤ hp ≤ 3` with
`hp = 0` iff the phase is game over; `part_000` violates the claim — it
reaches a state with `hp < 0` (two enemies overlap the player on one tick
at `hp = 1`, and `hp--` has no floor). -/
theorem claim_C1 :
    (∀ s : ECS.Game, ECS.Reach s →
      0 ≤ s.hp ∧ s.hp ≤ 3 ∧ (s.hp = 0 ↔ s.gameState = Phase.gameOver)) ∧
    (∃ s : Flat.Game, Flat.Reach s ∧ s.hp < 0 ∧
      s.gameState = Phase.gameOver) := by
  constructor
  · intro s h
    obtain ⟨h0, h3, hiff, _⟩ := ECS.reach_inv s h
    exact ⟨h0, h3, hiff⟩
  · refine ⟨Flat.run tinsHp (Flat.init rs0) 350,
      flat_reach_run tinsHp (Flat.init rs0) (Flat.Reach.init rs0) 350,
      ?_, run350_facts.2⟩
    rw [run350_facts.1]
    norm_num

theorem claim_C1_witness :
    0 ≤ (ECS.init rs0 0).hp ∧ (ECS.init rs0 0).hp ≤ 3 ∧
      ((ECS.init rs0 0).hp = 0 ↔
        (ECS.init rs0 0).gameState = Phase.gameOver) :=
  claim_C1.1 (ECS.init rs0 0) (ECS.Reach.init rs0 0)

/-- C1, the failing `part_000` session: after 350 ticks of `tinsHp` the
reachable state has `hp = -1`. -/
theorem claim_C1_cex :
    Flat.Reach (Flat.run tinsHp (Flat.init rs0) 350) ∧
    (Flat.run tinsHp (Flat.init rs0) 350).hp = -1 ∧
    (Flat.run tinsHp (Flat.init rs0) 350).gameState = Phase.gameOver :=
  ⟨flat_reach_run tinsHp (Flat.init rs0) (Flat.Reach.init rs0) 350,
   run350_facts.1, run350_facts.2⟩

/-- C2: in both implementations a tick never decreases the score, and the
collision pass adds exactly 100 per resolved bullet-enemy collision: in
`page.tsx` 100 per bullet with a hit, in `part_000` 100 per overlapping
enemy a bullet destroys. -/
theorem claim_C2 :
    (∀ (s : ECS.Game) (t : TickIn),
      s.score ≤ (ECS.updateAndRender s t).score) ∧
    (∀ (s : Flat.Game) (t : TickIn), s.score ≤ (Flat.update s t).score) ∧
    (∀ s : ECS.Game, (ECS.system_Collision s).score =
      s.score + 100 * (s.bullets.countP
        (fun b => (ECS.findHit b s.enemies).isSome) : ℤ)) ∧
    (∀ (b : Flat.Bullet) (sc : ℤ) (es : List Flat.Enemy),
      (Flat.scanEnemies b sc es).1 = sc + 100 *
        (es.countP (fun e => isColliding b.pos b.size e.pos e.size) : ℤ)) := by
  refine ⟨ECS.update_score_mono, flat_update_score_mono, ?_, ?_⟩
  · intro s
    rw [ECS.col_score]
    exact (ECS.bullet_fold_spec s.enemies s.bullets ⟨s.score, [], []⟩).1
  · intro b sc es
    rw [Flat.scanEnemies_spec]

theorem claim_C2_witness :
    (ECS.init rs0 0).score ≤
      (ECS.updateAndRender (ECS.init rs0 0) (idleTick 1)).score :=
  claim_C2.1 (ECS.init rs0 0) (idleTick 1)

/-- C3: in both implementations a tick adds a bullet only when the shoot
intent is on and at least `BULLET_FIRE_RATE` (120 ms) of wall clock has
passed since the last recorded fire time; holding shoot through 500
one-millisecond ticks fires exactly 4 bullets, at times 121, 242, 363 and
484 ms — consecutive fire times at least 120 ms apart. -/
theorem claim_C3 :
    (∀ (s : ECS.Game) (t : TickIn),
      s.bullets.length < (ECS.updateAndRender s t).bullets.length →
        s.input.shoot = true ∧
          t.now - s.lastFireTime ≥ BULLET_FIRE_RATE) ∧
    (∀ (s : Flat.Game) (t : TickIn),
      s.bullets.length < (Flat.update s t).bullets.length →
        s.input.shoot = true ∧
          t.now - s.lastFireTime ≥ BULLET_FIRE_RATE) ∧
    fireTicks tinsFire shootStart 1 500 = [121, 242, 363, 484] ∧
    List.Chain' (fun a b => a + 120 ≤ b)
      (fireTicks tinsFire shootStart 1 500) := by
  refine ⟨?_, ?_, fireTicks_500, ?_⟩
  · intro s t h
    by_contra hc
    exact absurd h (not_lt.mpr (ECS.update_nofire_len s t hc))
  · intro s t h
    by_contra hc
    exact absurd h (not_lt.mpr (flat_update_nofire_len s t hc))
  · rw [fireTicks_500]
    refine List.chain'_cons.mpr ⟨by norm_num, ?_⟩
    refine List.chain'_cons.mpr ⟨by norm_num, ?_⟩
    refine List.chain'_cons.mpr ⟨by norm_num, ?_⟩
    exact List.chain'_singleton 484

theorem claim_C3_witness :
    shootStart.input.shoot = true ∧
      (tinsFire 121).now - shootStart.lastFireTime ≥ BULLET_FIRE_RATE :=
  claim_C3.1 shootStart (tinsFire 121) (by decide)

/-- C4: in `page.tsx` a bullet scores at most once per collision pass (100
per bullet with a hit) and hits the first overlapping enemy of the scanned
list; in `part_000` the scan has no break, and every overlapping enemy
scores 100 — the actual per-bullet score is 100 per overlapping enemy. -/
theorem claim_C4 :
    (∀ s : ECS.Game, (ECS.system_Collision s).score =
      s.score + 100 * (s.bullets.countP
        (fun b => (ECS.findHit b s.enemies).isSome) : ℤ)) ∧
    (∀ (b : ECS.Bullet) (e : ECS.Enemy) (es : List ECS.Enemy),
      ECS.findHit b (e :: es) =
        if isColliding b.pos b.size e.pos e.size then some e
        else ECS.findHit b es) ∧
    (∀ (b : Flat.Bullet) (sc : ℤ) (es : List Flat.Enemy),
      (Flat.scanEnemies b sc es).1 = sc + 100 *
        (es.countP (fun e => isColliding b.pos b.size e.pos e.size) : ℤ)) := by
  refine ⟨?_, fun b e es => rfl, ?_⟩
  · intro s
    rw [ECS.col_score]
    exact (ECS.bullet_fold_spec s.enemies s.bullets ⟨s.score, [], []⟩).1
  · intro b sc es
    rw [Flat.scanEnemies_spec]

theorem claim_C4_witness :
    ECS.findHit ⟨1, ⟨0, 0⟩, ⟨0, 0⟩, 4, 3000⟩ [⟨2, ⟨0, 3⟩, ⟨0, 0⟩, 16⟩] =
      if isColliding (⟨0, 0⟩ : Vec2) 4 (⟨0, 3⟩ : Vec2) 16
      then some ⟨2, ⟨0, 3⟩, ⟨0, 0⟩, 16⟩
      else ECS.findHit ⟨1, ⟨0, 0⟩, ⟨0, 0⟩, 4, 3000⟩ [] :=
  claim_C4.2.1 ⟨1, ⟨0, 0⟩, ⟨0, 0⟩, 4, 3000⟩ ⟨2, ⟨0, 3⟩, ⟨0, 0⟩, 16⟩ []

/-- C4, counterexample for `part_000`: a single bullet overlapping two
enemies scores 200 in one tick and destroys both. -/
theorem claim_C4_cex :
    cex4.bullets.length = 1 ∧ cex4.score = 0 ∧
    (Flat.update cex4 (idleTick 1)).score = 200 ∧
    (Flat.update cex4 (idleTick 1)).bullets = [] ∧
    (Flat.update cex4 (idleTick 1)).enemies = [] := by decide

/-- C5: after any playing tick of either implementation no bullet or enemy
remains beyond its eviction band and (in `page.tsx`) every surviving bullet
has positive remaining lifetime.  (The claim fails in `page.tsx`'s game-over
phase, where `system_Cleanup` does not run; see the counterexample.) -/
theorem claim_C5 :
    (∀ (s : ECS.Game) (t : TickIn), ¬s.gameState = Phase.gameOver →
      (∀ b ∈ (ECS.updateAndRender s t).bullets,
        ECS.outOfBounds b.pos b.size = false ∧ 0 < b.lifetime) ∧
      (∀ e ∈ (ECS.updateAndRender s t).enemies,
        ECS.outOfBounds e.pos e.size = false)) ∧
    (∀ (s : Flat.Game) (t : TickIn), ¬s.gameState = Phase.gameOver →
      (∀ b ∈ (Flat.update s t).bullets,
        -20 < b.pos.y ∧ b.pos.y < GAME_HEIGHT + 20) ∧
      (∀ e ∈ (Flat.update s t).enemies,
        e.pos.y < GAME_HEIGHT + e.size + 10)) :=
  ⟨ECS.update_play_evict, Flat.update_play_bounds⟩

theorem claim_C5_witness :
    (⟨⟨100, 203/2⟩, ⟨0, 3/2⟩, 16⟩ : Flat.Enemy).pos.y <
      GAME_HEIGHT + (⟨⟨100, 203/2⟩, ⟨0, 3/2⟩, 16⟩ : Flat.Enemy).size + 10 :=
  (claim_C5.2 flatEnemyState (idleTick 1) (by decide)).2
    ⟨⟨100, 203/2⟩, ⟨0, 3/2⟩, 16⟩ (by decide)

/-- C5, counterexample for `page.tsx`: in the `tinsEvict` session enemy 56
is out of bounds (y = 605 > 568 + 16 + 20) in the reachable game-over state
after tick 417, and two ticks later it is still in the store (y = 608):
no eviction occurs during game over. -/
theorem claim_C5_cex :
    ECS.Reach (ECS.run tinsEvict (ECS.init rs0 0) 417) ∧
    (ECS.run tinsEvict (ECS.init rs0 0) 417).gameState = Phase.gameOver ∧
    (ECS.run tinsEvict (ECS.init rs0 0) 417).enemies =
      [⟨56, ⟨300, 605⟩, ⟨0, 3/2⟩, 16⟩] ∧
    ECS.outOfBounds ⟨300, 605⟩ 16 = true ∧
    ECS.run tinsEvict (ECS.init rs0 0) 419 =
      ECS.updateAndRender
        (ECS.updateAndRender (ECS.run tinsEvict (ECS.init rs0 0) 417)
          (tinsEvict 418)) (tinsEvict 419) ∧
    (ECS.run tinsEvict (ECS.init rs0 0) 419).enemies =
      [⟨56, ⟨300, 608⟩, ⟨0, 3/2⟩, 16⟩] := by
  refine ⟨ECS.reach_run tinsEvict (ECS.init rs0 0)
      (ECS.Reach.init rs0 0) 417,
    evict_run_facts.2.1, evict_run_facts.1, by decide, ?_,
    evict_run_facts.2.2⟩
  rw [show (419 : ℕ) = 417 + 2 from rfl, ECS.run_succ_succ]

/-- C6: `reset` in both implementations yields score 0, hp 3, phase
playing, the one player at the canonical start position, no bullets, no
enemies, and exactly `STAR_COUNT` (50) stars. -/
theorem claim_C6 :
    (∀ (s : ECS.Game) (rs : ℕ → StarRand) (now : ℚ),
      (ECS.reset s false rs now).score = 0 ∧
      (ECS.reset s false rs now).hp = 3 ∧
      (ECS.reset s false rs now).gameState = Phase.playing ∧
      (ECS.reset s false rs now).playerPos =
        createVector2 (GAME_WIDTH / 2) (GAME_HEIGHT - 60) ∧
      (ECS.reset s false rs now).bullets = [] ∧
      (ECS.reset s false rs now).enemies = [] ∧
      (ECS.reset s false rs now).stars.length = STAR_COUNT) ∧
    (∀ (s : Flat.Game) (rs : ℕ → StarRand),
      (Flat.reset s rs).score = 0 ∧
      (Flat.reset s rs).hp = 3 ∧
      (Flat.reset s rs).gameState = Phase.playing ∧
      (Flat.reset s rs).player.pos =
        createVector2 (GAME_WIDTH / 2) (GAME_HEIGHT - 60) ∧
      (Flat.reset s rs).bullets = [] ∧
      (Flat.reset s rs).enemies = [] ∧
      (Flat.reset s rs).stars.length = STAR_COUNT) := by
  constructor
  · intro s rs now
    refine ⟨rfl, rfl, rfl, rfl, rfl, rfl, ?_⟩
    simp [ECS.reset]
  · intro s rs
    refine ⟨rfl, rfl, rfl, rfl, rfl, rfl, ?_⟩
    simp [Flat.reset, Flat.initStars]

theorem claim_C6_witness :
    (ECS.reset (ECS.init rs0 0) false rs0 0).score = 0 ∧
    (ECS.reset (ECS.init rs0 0) false rs0 0).hp = 3 ∧
    (ECS.reset (ECS.init rs0 0) false rs0 0).gameState = Phase.playing ∧
    (ECS.reset (ECS.init rs0 0) false rs0 0).playerPos =
      createVector2 (GAME_WIDTH / 2) (GAME_HEIGHT - 60) ∧
    (ECS.reset (ECS.init rs0 0) false rs0 0).bullets = [] ∧
    (ECS.reset (ECS.init rs0 0) false rs0 0).enemies = [] ∧
    (ECS.reset (ECS.init rs0 0) false rs0 0).stars.length = STAR_COUNT :=
  claim_C6.1 (ECS.init rs0 0) rs0 0

/-- C7: after any tick from a reachable state, under any input, the player
position lies within `[size/2, width - size/2] × [size/2, height - size/2]`
(player size 20, playfield 320 × 568), in both implementations. -/
theorem claim_C7 :
    (∀ (s : ECS.Game) (t : TickIn), ECS.Reach s →
      PLAYER_SIZE / 2 ≤ (ECS.updateAndRender s t).playerPos.x ∧
      (ECS.updateAndRender s t).playerPos.x ≤
        GAME_WIDTH - PLAYER_SIZE / 2 ∧
      PLAYER_SIZE / 2 ≤ (ECS.updateAndRender s t).playerPos.y ∧
      (ECS.updateAndRender s t).playerPos.y ≤
        GAME_HEIGHT - PLAYER_SIZE / 2) ∧
    (∀ (s : Flat.Game) (t : TickIn), Flat.Reach s →
      PLAYER_SIZE / 2 ≤ (Flat.update s t).player.pos.x ∧
      (Flat.update s t).player.pos.x ≤ GAME_WIDTH - PLAYER_SIZE / 2 ∧
      PLAYER_SIZE / 2 ≤ (Flat.update s t).player.pos.y ∧
      (Flat.update s t).player.pos.y ≤ GAME_HEIGHT - PLAYER_SIZE / 2) := by
  constructor
  · intro s t h
    obtain ⟨_, _, _, _, h1, h2, h3, h4, _, _⟩ :=
      ECS.reach_inv _ (ECS.Reach.tick s t h)
    exact ⟨h1, h2, h3, h4⟩
  · intro s t h
    obtain ⟨_, h1, h2, h3, h4, _, _⟩ :=
      flat_reach_inv _ (Flat.Reach.tick s t h)
    exact ⟨h1, h2, h3, h4⟩

theorem claim_C7_witness :
    PLAYER_SIZE / 2 ≤
      (ECS.updateAndRender (ECS.init rs0 0) (idleTick 1)).playerPos.x ∧
    (ECS.updateAndRender (ECS.init rs0 0) (idleTick 1)).playerPos.x ≤
      GAME_WIDTH - PLAYER_SIZE / 2 ∧
    PLAYER_SIZE / 2 ≤
      (ECS.updateAndRender (ECS.init rs0 0) (idleTick 1)).playerPos.y ∧
    (ECS.updateAndRender (ECS.init rs0 0) (idleTick 1)).playerPos.y ≤
      GAME_HEIGHT - PLAYER_SIZE / 2 :=
  claim_C7.1 (ECS.init rs0 0) (idleTick 1) (ECS.Reach.init rs0 0)

/-- C8: in a game-over state a tick changes neither hp nor score, keeps the
phase game over, spawns no enemy (the enemy id list is unchanged) and fires
no bullet (every bullet id already existed) in `page.tsx` — only passive
motion continues; in `part_000` a game-over tick is the identity. -/
theorem claim_C8 :
    (∀ (s : ECS.Game) (t : TickIn), s.gameState = Phase.gameOver →
      (ECS.updateAndRender s t).hp = s.hp ∧
      (ECS.updateAndRender s t).score = s.score ∧
      (ECS.updateAndRender s t).gameState = Phase.gameOver ∧
      (ECS.updateAndRender s t).enemies.map ECS.Enemy.id =
        s.enemies.map ECS.Enemy.id ∧
      (∀ b ∈ (ECS.updateAndRender s t).bullets,
        b.id ∈ s.bullets.map ECS.Bullet.id)) ∧
    (∀ (s : Flat.Game) (t : TickIn), s.gameState = Phase.gameOver →
      Flat.update s t = s) := by
  constructor
  · intro s t h
    rw [ECS.update_gameOver_eq s t h]
    exact ⟨ECS.mov_hp t.starR t.dt s, ECS.mov_score t.starR t.dt s,
      (ECS.mov_gameState t.starR t.dt s).trans h,
      ECS.mov_enemy_ids t.starR t.dt s, ECS.mov_bullet_ids t.starR t.dt s⟩
  · exact Flat.update_gameOver

theorem claim_C8_witness : Flat.update goFlat (idleTick 1) = goFlat :=
  claim_C8.2 goFlat (idleTick 1) rfl

/-- C9: a tick never increases hp (in `page.tsx` from any reachable state,
in `part_000` from any state), and only `reset` restores hp to 3. -/
theorem claim_C9 :
    (∀ (s : ECS.Game) (t : TickIn), ECS.Reach s →
      (ECS.updateAndRender s t).hp ≤ s.hp) ∧
    (∀ (s : Flat.Game) (t : TickIn), (Flat.update s t).hp ≤ s.hp) ∧
    (∀ (s : ECS.Game) (rs : ℕ → StarRand) (now : ℚ),
      (ECS.reset s false rs now).hp = 3) ∧
    (∀ (s : Flat.Game) (rs : ℕ → StarRand), (Flat.reset s rs).hp = 3) := by
  refine ⟨?_, flat_update_hp_mono, fun s rs now => rfl, fun s rs => rfl⟩
  intro s t h
  exact ECS.update_hp_mono s t (ECS.reach_inv s h).1

theorem claim_C9_witness :
    (ECS.updateAndRender (ECS.init rs0 0) (idleTick 1)).hp ≤
      (ECS.init rs0 0).hp :=
  claim_C9.1 (ECS.init rs0 0) (idleTick 1) (ECS.Reach.init rs0 0)

/-- C10: in every reachable state of either implementation the score is a
nonnegative multiple of 100; it starts at 0 and `reset` returns it to 0. -/
theorem claim_C10 :
    (∀ s : ECS.Game, ECS.Reach s → 0 ≤ s.score ∧ (100 : ℤ) ∣ s.score) ∧
    (∀ s : Flat.Game, Flat.Reach s → 0 ≤ s.score ∧ (100 : ℤ) ∣ s.score) ∧
    (∀ (rs : ℕ → StarRand) (now : ℚ), (ECS.init rs now).score = 0) ∧
    (∀ rs : ℕ → StarRand, (Flat.init rs).score = 0) ∧
    (∀ (s : ECS.Game) (rs : ℕ → StarRand) (now : ℚ),
      (ECS.reset s false rs now).score = 0) ∧
    (∀ (s : Flat.Game) (rs : ℕ → StarRand), (Flat.reset s rs).score = 0) := by
  refine ⟨?_, ?_, fun rs now => rfl, fun rs => rfl,
    fun s rs now => rfl, fun s rs => rfl⟩
  · intro s h
    obtain ⟨_, _, _, _, _, _, _, _, h9, h10⟩ := ECS.reach_inv s h
    exact ⟨h9, h10⟩
  · intro s h
    obtain ⟨_, _, _, _, _, h6, h7⟩ := flat_reach_inv s h
    exact ⟨h6, h7⟩

theorem claim_C10_witness :
    0 ≤ (Flat.init rs0).score ∧ (100 : ℤ) ∣ (Flat.init rs0).score :=
  claim_C10.2.1 (Flat.init rs0) (Flat.Reach.init rs0)
